import Mathlib

/-!
Verification of the claw-spawn control plane against its specification.

This file shallowly embeds the parts of the Rust source needed to settle
claims C1-C10: the bot-name sanitizer, the registration-token digest and the
token-authenticated lookup, the provisioning saga (`create_bot`, `spawn_bot`,
`destroy_bot`, `pause_bot`), the lifecycle reconciler (`create_bot_config`,
`acknowledge_config`, `record_heartbeat`), the HTTP status mapping of the
config-ack route, and the AES-256-GCM secrets envelope.

Databases become an explicit state record, fallible calls return `Except`,
and machine integers become `Nat` with explicit masking where overflow
matters.  Every definition is executable.
-/

set_option maxRecDepth 10000

namespace ClawSpawn

/-! ## Bot name sanitization (src/application/provisioning.rs, lines 75-94) -/

/-- `MAX_BOT_NAME_LENGTH` from provisioning.rs line 16. -/
def MAX_BOT_NAME_LENGTH : Nat := 64

/-- The character class kept by `sanitize_bot_name`:
`'a'..='z' | 'A'..='Z' | '0'..='9' | ' ' | '-' | '_'` (provisioning.rs line 81). -/
def allowedNameChar (c : Char) : Bool :=
  ('a' ≤ c && c ≤ 'z') || ('A' ≤ c && c ≤ 'Z') || ('0' ≤ c && c ≤ '9') ||
    c == ' ' || c == '-' || c == '_'

/-- The per-character map of `sanitize_bot_name`: keep allowed characters,
replace every other Unicode code point with `'_'` (provisioning.rs lines 78-85). -/
def sanitizeMapChar (c : Char) : Char :=
  if allowedNameChar c then c else '_'

/-- The Unicode `White_Space` code points, which is what Rust's `str::trim`
strips from both ends. -/
def isRustWhitespace (c : Char) : Bool :=
  [0x09, 0x0A, 0x0B, 0x0C, 0x0D, 0x20, 0x85, 0xA0, 0x1680,
   0x2000, 0x2001, 0x2002, 0x2003, 0x2004, 0x2005, 0x2006, 0x2007,
   0x2008, 0x2009, 0x200A, 0x2028, 0x2029, 0x202F, 0x205F, 0x3000].contains c.toNat

/-- Rust `str::trim`: remove leading and trailing `White_Space` characters.
Modelled as trim-end (reverse, drop, reverse) followed by trim-start. -/
def rustTrim (l : List Char) : List Char :=
  ((l.reverse.dropWhile isRustWhitespace).reverse).dropWhile isRustWhitespace

/-- `sanitize_bot_name` (provisioning.rs lines 75-94): map characters, trim,
then truncate to at most `MAX_BOT_NAME_LENGTH` code points. -/
def sanitize_bot_name (name : String) : String :=
  let sanitized := name.data.map sanitizeMapChar
  let trimmed := rustTrim sanitized
  if trimmed.length > MAX_BOT_NAME_LENGTH then
    ⟨trimmed.take MAX_BOT_NAME_LENGTH⟩
  else
    ⟨trimmed⟩

/-- ASCII whitespace, the class named by the spec's sanitization property. -/
def isAsciiWhitespace (c : Char) : Bool :=
  c == ' ' || c == '\t' || c == '\n' || c == '\r' || c == '\x0c'

/-- `true` when the list is empty or starts with a non-ASCII-whitespace
character. -/
def headNoAsciiWs : List Char → Bool
  | [] => true
  | c :: _ => !isAsciiWhitespace c

/-- Claim C5 as stated: for the given input, the sanitizer output has at most
64 code points, contains only characters from `[A-Za-z0-9 _-]`, and has no
leading or trailing ASCII whitespace. -/
def sanitizeBotNameClaim (input : String) : Prop :=
  (sanitize_bot_name input).data.length ≤ 64 ∧
  (sanitize_bot_name input).data.all allowedNameChar = true ∧
  headNoAsciiWs (sanitize_bot_name input).data = true ∧
  headNoAsciiWs (sanitize_bot_name input).data.reverse = true

/-! ## SHA-256 and the registration-token digest
(src/infrastructure/repository.rs, lines 289-292 and 347-372)

`hash_registration_token` computes `"sha256:" ++ hex(sha256(token))` via the
`sha2` crate; SHA-256 itself is FIPS 180-4, embedded here executably over
byte lists (`Nat` entries below 256, 32-bit words reduced mod `2^32`). -/

/-- Truncate to a 32-bit word. -/
def w32 (n : Nat) : Nat := n % 4294967296

/-- 32-bit right rotation. -/
def rotr32 (x n : Nat) : Nat := w32 ((x >>> n) ||| (x <<< (32 - n)))

def shaCh (x y z : Nat) : Nat := (x &&& y) ^^^ ((x ^^^ 4294967295) &&& z)

def shaMaj (x y z : Nat) : Nat := (x &&& y) ^^^ (x &&& z) ^^^ (y &&& z)

def bigSigma0 (x : Nat) : Nat := rotr32 x 2 ^^^ rotr32 x 13 ^^^ rotr32 x 22

def bigSigma1 (x : Nat) : Nat := rotr32 x 6 ^^^ rotr32 x 11 ^^^ rotr32 x 25

def smallSigma0 (x : Nat) : Nat := rotr32 x 7 ^^^ rotr32 x 18 ^^^ (x >>> 3)

def smallSigma1 (x : Nat) : Nat := rotr32 x 17 ^^^ rotr32 x 19 ^^^ (x >>> 10)

/-- The SHA-256 round constants. -/
def sha256K : List Nat :=
  [1116352408, 1899447441, 3049323471, 3921009573, 961987163, 1508970993,
   2453635748, 2870763221, 3624381080, 310598401, 607225278, 1426881987,
   1925078388, 2162078206, 2614888103, 3248222580, 3835390401, 4022224774,
   264347078, 604807628, 770255983, 1249150122, 1555081692, 1996064986,
   2554220882, 2821834349, 2952996808, 3210313671, 3336571891, 3584528711,
   113926993, 338241895, 666307205, 773529912, 1294757372, 1396182291,
   1695183700, 1986661051, 2177026350, 2456956037, 2730485921, 2820302411,
   3259730800, 3345764771, 3516065817, 3600352804, 4094571909, 275423344,
   430227734, 506948616, 659060556, 883997877, 958139571, 1322822218,
   1537002063, 1747873779, 1955562222, 2024104815, 2227730452, 2361852424,
   2428436474, 2756734187, 3204031479, 3329325298]

/-- The SHA-256 initial hash value. -/
def sha256Init : List Nat :=
  [0x6a09e667, 0xbb67ae85, 0x3c6ef372, 0xa54ff53a,
   0x510e527f, 0x9b05688c, 0x1f83d9ab, 0x5be0cd19]

/-- Big-endian packing of bytes into 32-bit words. -/
def toWords : List Nat → List Nat
  | b0 :: b1 :: b2 :: b3 :: rest =>
      (((b0 * 256 + b1) * 256 + b2) * 256 + b3) :: toWords rest
  | _ => []

/-- Extend the 16-word message schedule by `n` further words. -/
def extendSchedule (ws : List Nat) : Nat → List Nat
  | 0 => ws
  | n + 1 =>
      let t := ws.length
      let w := w32 (smallSigma1 (ws.getD (t - 2) 0) + ws.getD (t - 7) 0 +
        smallSigma0 (ws.getD (t - 15) 0) + ws.getD (t - 16) 0)
      extendSchedule (ws ++ [w]) n

/-- One SHA-256 compression of a 64-byte block into the running hash. -/
def shaCompress (hs block : List Nat) : List Nat :=
  let ws := extendSchedule (toWords block) 48
  let final := (sha256K.zip ws).foldl
    (fun st kw =>
      match st with
      | [a, b, c, d, e, f, g, h] =>
          let t1 := w32 (h + bigSigma1 e + shaCh e f g + kw.1 + kw.2)
          let t2 := w32 (bigSigma0 a + shaMaj a b c)
          [w32 (t1 + t2), a, b, c, w32 (d + t1), e, f, g]
      | st => st)
    hs
  (hs.zip final).map fun p => w32 (p.1 + p.2)

/-- Split into 64-byte chunks (fuelled by the length so that it reduces
inside the kernel). -/
def chunks64Aux : Nat → List Nat → List (List Nat)
  | _, [] => []
  | 0, _ => []
  | fuel + 1, l => l.take 64 :: chunks64Aux fuel (l.drop 64)

/-- Split into 64-byte chunks. -/
def chunks64 (l : List Nat) : List (List Nat) := chunks64Aux l.length l

/-- Big-endian 8-byte encoding of the bit length. -/
def lenBytes8 (n : Nat) : List Nat :=
  [(n >>> 56) % 256, (n >>> 48) % 256, (n >>> 40) % 256, (n >>> 32) % 256,
   (n >>> 24) % 256, (n >>> 16) % 256, (n >>> 8) % 256, n % 256]

/-- FIPS 180-4 padding: `0x80`, zeros to 56 mod 64, then the 64-bit length. -/
def sha256Pad (msg : List Nat) : List Nat :=
  let L := msg.length
  let padLen := (64 - (L + 9) % 64) % 64
  msg ++ 0x80 :: (List.replicate padLen 0 ++ lenBytes8 (L * 8))

/-- Big-endian unpacking of 32-bit words into bytes. -/
def wordsToBytes : List Nat → List Nat
  | [] => []
  | w :: ws => (w >>> 24) % 256 :: (w >>> 16) % 256 :: (w >>> 8) % 256 :: w % 256 ::
      wordsToBytes ws

/-- SHA-256 of a byte list, as 32 bytes. -/
def sha256 (msg : List Nat) : List Nat :=
  wordsToBytes ((chunks64 (sha256Pad msg)).foldl shaCompress sha256Init)

/-- Lowercase hex digit. -/
def hexDigitChar (n : Nat) : Char :=
  if n < 10 then Char.ofNat (48 + n) else Char.ofNat (87 + n)

/-- Lowercase hex rendering of a byte list (Rust's `{:x}` on a digest). -/
def bytesToHex : List Nat → List Char
  | [] => []
  | b :: bs => hexDigitChar (b / 16) :: hexDigitChar (b % 16) :: bytesToHex bs

/-- UTF-8 encoding of one character, as bytes. -/
def utf8EncodeChar (c : Char) : List Nat :=
  let n := c.toNat
  if n < 0x80 then [n]
  else if n < 0x800 then [0xC0 + n / 64, 0x80 + n % 64]
  else if n < 0x10000 then [0xE0 + n / 4096, 0x80 + n / 64 % 64, 0x80 + n % 64]
  else [0xF0 + n / 262144, 0x80 + n / 4096 % 64, 0x80 + n / 64 % 64, 0x80 + n % 64]

/-- `str::as_bytes`: the UTF-8 bytes of a string. -/
def strBytes (s : String) : List Nat := (s.data.map utf8EncodeChar).flatten

/-- `hash_registration_token` (repository.rs lines 289-292):
`"sha256:" ++ hex(sha256(token))`. -/
def hash_registration_token (token : String) : String :=
  ⟨"sha256:".data ++ bytesToHex (sha256 (strBytes token))⟩

/-! ## Domain model (src/domain/bot.rs) and repository state

UUIDs and IaaS droplet ids are embedded as `Nat`; timestamps as `Nat`.
Tables are partial maps `Nat → Option row`; the per-account quota counter and
the per-bot version sequence are total maps. -/

/-- `RepositoryError` (repository.rs lines 10-18). -/
inductive RepositoryError
  | databaseError
  | notFound
  | invalidData
deriving Repr, DecidableEq

/-- `BotStatus` (bot.rs lines 28-36). -/
inductive BotStatus
  | pending
  | provisioning
  | online
  | paused
  | error
  | destroyed
deriving Repr, DecidableEq

deriving instance DecidableEq for Except

/-- The `bots` row (bot.rs lines 5-19); `created_at`/`updated_at` are not
modelled, no claim mentions them. -/
structure BotRow where
  accountId : Nat
  name : String
  status : BotStatus
  dropletId : Option Nat
  desiredConfigVersionId : Option Nat
  appliedConfigVersionId : Option Nat
  registrationToken : Option String
  lastHeartbeatAt : Option Nat
deriving Repr, DecidableEq

/-- The `bot_configs` row, keyed by config id; only the fields the claims
mention (`bot_id`, `version`) are carried. -/
structure ConfigRow where
  botId : Nat
  version : Nat
deriving Repr, DecidableEq

/-- The `droplets` row, keyed by droplet id. -/
structure DropletRow where
  botId : Option Nat
  destroyed : Bool
deriving Repr, DecidableEq

/-- The relational store: bots, configs, droplets, and the per-account quota
counter `(current_count, max_count)`.  `nextVer` is the per-bot sequence
backing the atomic config-version allocator. -/
structure CPState where
  bots : Nat → Option BotRow
  configs : Nat → Option ConfigRow
  droplets : Nat → Option DropletRow
  counter : Nat → Nat
  maxBots : Nat → Nat
  nextVer : Nat → Nat

/-- Point update of a partial map. -/
def upd {α : Type} (m : Nat → Option α) (k : Nat) (v : Option α) : Nat → Option α :=
  fun x => if x = k then v else m x

/-- Point update of a total map. -/
def updT (m : Nat → Nat) (k v : Nat) : Nat → Nat :=
  fun x => if x = k then v else m x

/-! ## BotRepository operations (repository.rs)

SQL `UPDATE ... WHERE id = $n` succeeds even when no row matches, so the
update operations below are total and leave the table unchanged on a missing
key. -/

/-- `update_status` (repository.rs lines 433-450). -/
def bots_update_status (s : CPState) (id : Nat) (st : BotStatus) : CPState :=
  { s with bots := fun x =>
      if x = id then (s.bots x).map fun b => { b with status := st } else s.bots x }

/-- `update_droplet` (repository.rs lines 452-471). -/
def bots_update_droplet (s : CPState) (id : Nat) (d : Option Nat) : CPState :=
  { s with bots := fun x =>
      if x = id then (s.bots x).map fun b => { b with dropletId := d } else s.bots x }

/-- `update_config_version` (repository.rs lines 473-494): a single-row write
of the `(desired, applied)` pair. -/
def bots_update_config_version (s : CPState) (id : Nat) (desired applied : Option Nat) :
    CPState :=
  { s with bots := fun x =>
      if x = id then
        (s.bots x).map fun b =>
          { b with desiredConfigVersionId := desired, appliedConfigVersionId := applied }
      else s.bots x }

/-- `update_heartbeat` (repository.rs lines 496-511): sets `last_heartbeat_at`
to the current time, passed in as `now`. -/
def bots_update_heartbeat (s : CPState) (id : Nat) (now : Nat) : CPState :=
  { s with bots := fun x =>
      if x = id then (s.bots x).map fun b => { b with lastHeartbeatAt := some now }
      else s.bots x }

/-- `update_registration_token` (repository.rs lines 513-533): stores only the
digest of the given token. -/
def bots_update_registration_token (s : CPState) (id : Nat) (token : String) : CPState :=
  { s with bots := fun x =>
      if x = id then
        (s.bots x).map fun b =>
          { b with registrationToken := some (hash_registration_token token) }
      else s.bots x }

/-- `delete` (repository.rs lines 535-549): soft delete, `status = 'destroyed'`. -/
def bots_delete (s : CPState) (id : Nat) : CPState :=
  { s with bots := fun x =>
      if x = id then (s.bots x).map fun b => { b with status := .destroyed } else s.bots x }

/-- `hard_delete` (repository.rs lines 551-563): removes the row. -/
def bots_hard_delete (s : CPState) (id : Nat) : CPState :=
  { s with bots := upd s.bots id none }

/-- Modelled from the spec: the stored procedure `increment_bot_counter`
(called at repository.rs lines 565-591; the SQL function itself is not under
`src/`).  Atomic compare-and-increment: if `current < max`, increment and
return `(true, current+1, max)`, else `(false, current, max)` with no
mutation. -/
def increment_bot_counter (s : CPState) (a : Nat) : (Bool × Nat × Nat) × CPState :=
  if s.counter a < s.maxBots a then
    ((true, s.counter a + 1, s.maxBots a),
      { s with counter := updT s.counter a (s.counter a + 1) })
  else
    ((false, s.counter a, s.maxBots a), s)

/-- Modelled from the spec: the stored procedure `decrement_bot_counter`
(called at repository.rs lines 593-600; the SQL function itself is not under
`src/`) — decrements but never goes below zero. -/
def decrement_bot_counter (s : CPState) (a : Nat) : CPState :=
  { s with counter := updT s.counter a (s.counter a - 1) }

/-- `BotRepository::create` (repository.rs lines 296-324): an `INSERT`, which
fails on a duplicate key. -/
def bots_create (s : CPState) (id : Nat) (row : BotRow) : Except RepositoryError CPState :=
  match s.bots id with
  | some _ => .error .databaseError
  | none => .ok { s with bots := upd s.bots id (some row) }

/-- `ConfigRepository::create` (postgres_config_repo.rs lines 19-45). -/
def configs_create (s : CPState) (id : Nat) (row : ConfigRow) :
    Except RepositoryError CPState :=
  match s.configs id with
  | some _ => .error .databaseError
  | none => .ok { s with configs := upd s.configs id (some row) }

/-- Modelled from the spec: the stored procedure
`get_next_config_version_atomic` (called at postgres_config_repo.rs lines
105-117; the SQL function itself is not under `src/`).  The spec allows "a
dedicated sequence"; embedded as the per-bot sequence `nextVer`. -/
def get_next_version_atomic (s : CPState) (botId : Nat) : Nat × CPState :=
  (s.nextVer botId + 1,
    { s with nextVer := updT s.nextVer botId (s.nextVer botId + 1) })

/-- `DropletRepository::create` for the row inserted by the saga. -/
def droplets_create (s : CPState) (id : Nat) : CPState :=
  { s with droplets := upd s.droplets id (some { botId := none, destroyed := false }) }

/-- `update_bot_assignment`. -/
def droplets_update_bot_assignment (s : CPState) (id : Nat) (botId : Option Nat) : CPState :=
  { s with droplets := fun x =>
      if x = id then (s.droplets x).map fun d => { d with botId := botId }
      else s.droplets x }

/-- `mark_destroyed`. -/
def droplets_mark_destroyed (s : CPState) (id : Nat) : CPState :=
  { s with droplets := fun x =>
      if x = id then (s.droplets x).map fun d => { d with destroyed := true }
      else s.droplets x }

/-! ## C1 — token-authenticated lookup (repository.rs lines 347-372) -/

/-- The `WHERE` clause of `get_by_id_with_token`:
`registration_token = $2 OR registration_token = $3` with `$2` the raw
presented token and `$3` its digest (SQL `NULL = x` is not true). -/
def tokenMatches (stored : Option String) (token : String) : Bool :=
  match stored with
  | none => false
  | some s => s == token || s == hash_registration_token token

/-- `get_by_id_with_token` (repository.rs lines 347-372). -/
def get_by_id_with_token (bots : Nat → Option BotRow) (id : Nat) (token : String) :
    Except RepositoryError BotRow :=
  match bots id with
  | none => .error .notFound
  | some row =>
      if tokenMatches row.registrationToken token then .ok row else .error .notFound

/-- A bot row holding the digest of the plaintext token `"tok"`, as written by
`update_registration_token`. -/
def rowC1 : BotRow :=
  { accountId := 7, name := "w", status := .online, dropletId := none,
    desiredConfigVersionId := none, appliedConfigVersionId := none,
    registrationToken := some (hash_registration_token "tok"),
    lastHeartbeatAt := none }

/-- A bots table holding `rowC1` at id 1. -/
def botsC1 : Nat → Option BotRow := fun i => if i = 1 then some rowC1 else none

/-- A bot row for the C1 witness, storing the digest of `"t"`. -/
def rowC1w : BotRow :=
  { accountId := 3, name := "w", status := .online, dropletId := none,
    desiredConfigVersionId := none, appliedConfigVersionId := none,
    registrationToken := some (hash_registration_token "t"),
    lastHeartbeatAt := none }

/-- A bots table holding `rowC1w` at id 2. -/
def botsC1w : Nat → Option BotRow := fun i => if i = 2 then some rowC1w else none

/-! ## Lifecycle service (src/application/lifecycle.rs)

Each service call takes the state explicitly; calls that the state alone
cannot decide (transient database failures on writes) take an oracle of
booleans, one per fallible write, so theorems quantify over every failure
interleaving. -/

/-- `LifecycleError` (lifecycle.rs lines 9-19). -/
inductive LifecycleError
  | repository (e : RepositoryError)
  | invalidState (st : BotStatus)
  | configNotFound (id : Nat)
  | configVersionConflict (acknowledged : Nat) (desired : Option Nat)
deriving Repr, DecidableEq

/-- Write-failure oracle for `acknowledge_config`. -/
structure AckOracle where
  updateConfigVersionOk : Bool
  updateStatusOk : Bool
deriving Repr, DecidableEq

/-- The fault-free oracle. -/
def ackOracleOk : AckOracle := ⟨true, true⟩

/-- `acknowledge_config` (lifecycle.rs lines 100-130): fetch the config by id
(404 on missing), require `config.bot_id = bot_id` (else `ConfigNotFound`),
fetch the bot, require `desired_config_version_id = config_id` (else
`ConfigVersionConflict`), then write `applied = desired = config_id` and
promote a `provisioning`/`pending` bot to `online`. -/
def acknowledge_config (o : AckOracle) (s : CPState) (botId configId : Nat) :
    Except LifecycleError Unit × CPState :=
  match s.configs configId with
  | none => (.error (.repository .notFound), s)
  | some config =>
    if config.botId ≠ botId then (.error (.configNotFound configId), s)
    else
      match s.bots botId with
      | none => (.error (.repository .notFound), s)
      | some bot =>
        if bot.desiredConfigVersionId ≠ some configId then
          (.error (.configVersionConflict configId bot.desiredConfigVersionId), s)
        else if ¬ o.updateConfigVersionOk then (.error (.repository .databaseError), s)
        else
          let s1 := bots_update_config_version s botId (some configId) (some configId)
          if bot.status = .provisioning ∨ bot.status = .pending then
            if ¬ o.updateStatusOk then (.error (.repository .databaseError), s1)
            else (.ok (), bots_update_status s1 botId .online)
          else (.ok (), s1)

/-- Write-failure oracle for `create_bot_config`. -/
structure CreateConfigOracle where
  versionAllocOk : Bool
  configCreateOk : Bool
  updateConfigVersionOk : Bool
deriving Repr, DecidableEq

/-- The fault-free oracle. -/
def createConfigOracleOk : CreateConfigOracle := ⟨true, true, true⟩

/-- `create_bot_config` (lifecycle.rs lines 65-98): refuse a destroyed bot,
allocate the next version atomically, insert the config with that version
under the fresh id `newConfigId`, then point `desired_config_version_id` at it
while writing back the previously fetched `applied_config_version_id`. -/
def create_bot_config (o : CreateConfigOracle) (s : CPState) (botId newConfigId : Nat) :
    Except LifecycleError ConfigRow × CPState :=
  match s.bots botId with
  | none => (.error (.repository .notFound), s)
  | some bot =>
    if bot.status = .destroyed then (.error (.invalidState bot.status), s)
    else if ¬ o.versionAllocOk then (.error (.repository .databaseError), s)
    else
      let alloc := get_next_version_atomic s botId
      let config_with_version : ConfigRow := { botId := botId, version := alloc.1 }
      if ¬ o.configCreateOk then (.error (.repository .databaseError), alloc.2)
      else
        match configs_create alloc.2 newConfigId config_with_version with
        | .error e => (.error (.repository e), alloc.2)
        | .ok s2 =>
          if ¬ o.updateConfigVersionOk then (.error (.repository .databaseError), s2)
          else
            (.ok config_with_version,
              bots_update_config_version s2 botId (some newConfigId)
                bot.appliedConfigVersionId)

/-- `record_heartbeat` (lifecycle.rs lines 146-149): unconditionally writes
`last_heartbeat_at = now`. -/
def record_heartbeat (s : CPState) (botId now : Nat) :
    Except LifecycleError Unit × CPState :=
  (.ok (), bots_update_heartbeat s botId now)

/-! ## HTTP status mapping for the config-ack route (src/server) -/

/-- The wired handler of `POST /bot/\x7bid\x7d/config_ack` (http.rs lines
771-780): 200 on success, 400 on *every* service error. -/
def ack_config_http_status (r : Except LifecycleError Unit) : Nat :=
  match r with
  | .ok _ => 200
  | .error _ => 400

/-- `map_ack_config_error` (http_errors.rs lines 76-95).  Present in the
source but imported by no route; the config-ack handler above does not call
it. -/
def map_ack_config_error (e : LifecycleError) : Nat :=
  match e with
  | .repository .notFound => 404
  | .configNotFound _ => 404
  | .configVersionConflict _ _ => 409
  | .invalidState _ => 400
  | _ => 500

/-! ## Provisioning saga (src/application/provisioning.rs)

The saga crosses the IaaS and the store.  IaaS outcomes and write failures
come from an explicit oracle; every repository call is appended to a call
log so theorems can speak about which compensations ran. -/

/-- `DigitalOceanError`, restricted to the outcomes the saga distinguishes. -/
inductive DigitalOceanError
  | rateLimited
  | notFound
  | other
deriving Repr, DecidableEq

/-- `ProvisioningError` (provisioning.rs lines 96-108). -/
inductive ProvisioningError
  | digitalOcean (e : DigitalOceanError)
  | repository (e : RepositoryError)
  | accountLimitReached (max : Nat)
  | invalidConfig
  | encryption
deriving Repr, DecidableEq

/-- `should_rollback_create_failure` (provisioning.rs lines 65-70): everything
except the IaaS `RateLimited` outcome is rollback-eligible. -/
def should_rollback_create_failure : ProvisioningError → Bool
  | .digitalOcean .rateLimited => false
  | _ => true

/-- Repository / IaaS calls, for the saga's call log. -/
inductive RepoCall
  | accountGetById (a : Nat)
  | incrementBotCounter (a : Nat)
  | botCreate (id : Nat)
  | encryptSecrets
  | configCreate (id : Nat)
  | updateConfigVersion (id : Nat)
  | updateStatus (id : Nat) (st : BotStatus)
  | updateRegistrationToken (id : Nat)
  | doCreateDroplet
  | dropletInsert (id : Nat)
  | dropletAssign (id : Nat)
  | updateDroplet (id : Nat)
  | doDestroyDroplet (id : Nat)
  | doShutdownDroplet (id : Nat)
  | doGetDroplet (id : Nat)
  | doRebootDroplet (id : Nat)
  | hardDelete (id : Nat)
  | decrementBotCounter (a : Nat)
  | botDelete (id : Nat)
  | markDestroyed (id : Nat)
deriving Repr, DecidableEq

/-- Outcome of the IaaS `create_droplet` call. -/
inductive DOCreateOutcome
  | ok (dropletId : Nat)
  | rateLimited
  | err
deriving Repr, DecidableEq

/-- Outcome of the IaaS `destroy_droplet` call. -/
inductive DODestroyOutcome
  | ok
  | notFound
  | err
deriving Repr, DecidableEq

/-- Failure oracle for one `create_bot` execution: one field per fallible
step, in program order. -/
structure CreateOracle where
  accountExists : Bool
  incrementOk : Bool
  botCreateOk : Bool
  encryptOk : Bool
  configCreateOk : Bool
  updateCfgVerOk : Bool
  statusProvisioningOk : Bool
  regTokenOk : Bool
  doCreate : DOCreateOutcome
  statusPendingOk : Bool
  statusErrOnDoFailOk : Bool
  dropletInsertOk : Bool
  dropletAssignOk : Bool
  botUpdateDropletOk : Bool
  statusErrOnDbFailOk : Bool
  hardDeleteOk : Bool
  decrementOk : Bool
deriving Repr, DecidableEq

/-- `Bot::new` (bot.rs lines 160-176): status `pending`, no droplet, no
config pointers, no token. -/
def Bot_new (accountId : Nat) (name : String) : BotRow :=
  { accountId := accountId, name := name, status := .pending, dropletId := none,
    desiredConfigVersionId := none, appliedConfigVersionId := none,
    registrationToken := none, lastHeartbeatAt := none }

/-- The cleanup path of `spawn_bot` when a DB step fails after the droplet
was created (provisioning.rs lines 987-1025): try to destroy the droplet
(logged only), set the bot's status to `error` (failure logged only), and
return the DB error. -/
def spawn_db_fail_cleanup (o : CreateOracle) (s : CPState) (log : List RepoCall)
    (botId dropletId : Nat) : Except ProvisioningError Unit × CPState × List RepoCall :=
  let log := log ++ [.doDestroyDroplet dropletId, .updateStatus botId .error]
  let s := if o.statusErrOnDbFailOk then bots_update_status s botId .error else s
  (.error (.repository .databaseError), s, log)

/-- `spawn_bot` (provisioning.rs lines 903-1036): set status `provisioning`,
persist the token digest, call the IaaS.  On `RateLimited`, set status back
to `pending` and surface `RateLimited`; on any other IaaS error set status
`error`; on success insert the droplet row, assign it, and point the bot at
it, cleaning up the droplet if those DB steps fail. -/
def spawn_bot (o : CreateOracle) (s : CPState) (log : List RepoCall)
    (botId : Nat) (token : String) :
    Except ProvisioningError Unit × CPState × List RepoCall :=
  let log := log ++ [.updateStatus botId .provisioning]
  if ¬ o.statusProvisioningOk then (.error (.repository .databaseError), s, log) else
  let s := bots_update_status s botId .provisioning
  let log := log ++ [.updateRegistrationToken botId]
  if ¬ o.regTokenOk then (.error (.repository .databaseError), s, log) else
  let s := bots_update_registration_token s botId token
  let log := log ++ [.doCreateDroplet]
  match o.doCreate with
  | .rateLimited =>
      let log := log ++ [.updateStatus botId .pending]
      if ¬ o.statusPendingOk then (.error (.repository .databaseError), s, log)
      else (.error (.digitalOcean .rateLimited), bots_update_status s botId .pending, log)
  | .err =>
      let log := log ++ [.updateStatus botId .error]
      if ¬ o.statusErrOnDoFailOk then (.error (.repository .databaseError), s, log)
      else (.error (.digitalOcean .other), bots_update_status s botId .error, log)
  | .ok dropletId =>
      let log := log ++ [.dropletInsert dropletId]
      if ¬ o.dropletInsertOk then spawn_db_fail_cleanup o s log botId dropletId else
      let s := droplets_create s dropletId
      let log := log ++ [.dropletAssign dropletId]
      if ¬ o.dropletAssignOk then spawn_db_fail_cleanup o s log botId dropletId else
      let s := droplets_update_bot_assignment s dropletId (some botId)
      let log := log ++ [.updateDroplet botId]
      if ¬ o.botUpdateDropletOk then spawn_db_fail_cleanup o s log botId dropletId else
      (.ok (), bots_update_droplet s botId (some dropletId), log)

/-- `create_bot_internal` (provisioning.rs lines 863-901): insert the bot row,
encrypt the secrets, insert config version 1 under the fresh id `configId`,
point the bot's desired pointer at it, then spawn. -/
def create_bot_internal (o : CreateOracle) (s : CPState) (log : List RepoCall)
    (bot : BotRow) (botId configId : Nat) (token : String) :
    Except ProvisioningError Unit × CPState × List RepoCall :=
  let log := log ++ [.botCreate botId]
  if ¬ o.botCreateOk then (.error (.repository .databaseError), s, log) else
  match bots_create s botId bot with
  | .error e => (.error (.repository e), s, log)
  | .ok s =>
    let log := log ++ [.encryptSecrets]
    if ¬ o.encryptOk then (.error (.encryption), s, log) else
    let log := log ++ [.configCreate configId]
    if ¬ o.configCreateOk then (.error (.repository .databaseError), s, log) else
    match configs_create s configId { botId := botId, version := 1 } with
    | .error e => (.error (.repository e), s, log)
    | .ok s =>
      let log := log ++ [.updateConfigVersion botId]
      if ¬ o.updateCfgVerOk then (.error (.repository .databaseError), s, log) else
      let s := bots_update_config_version s botId (some configId) none
      spawn_bot o s log botId token

/-- `create_bot` (provisioning.rs lines 792-861): fetch the account, reserve
quota via the atomic counter, sanitize the name, run the inner transaction,
and on a rollback-eligible failure run the compensation — `hard_delete`
(ignoring its errors) then `decrement_bot_counter` (failure logged only) —
before surfacing the original error. -/
def create_bot (o : CreateOracle) (s : CPState)
    (accountId botId configId : Nat) (name token : String) :
    Except ProvisioningError Unit × CPState × List RepoCall :=
  let log := [RepoCall.accountGetById accountId]
  if ¬ o.accountExists then (.error (.repository .notFound), s, log) else
  let log := log ++ [.incrementBotCounter accountId]
  if ¬ o.incrementOk then (.error (.repository .databaseError), s, log) else
  let inc := increment_bot_counter s accountId
  if ¬ inc.1.1 then (.error (.accountLimitReached inc.1.2.2), inc.2, log) else
  let s := inc.2
  let bot := Bot_new accountId (sanitize_bot_name name)
  match create_bot_internal o s log bot botId configId token with
  | (.ok _, s, log) => (.ok (), s, log)
  | (.error e, s, log) =>
    if ¬ should_rollback_create_failure e then (.error e, s, log) else
    let log := log ++ [.hardDelete botId]
    let s := if o.hardDeleteOk then bots_hard_delete s botId else s
    let log := log ++ [.decrementBotCounter accountId]
    let s := if o.decrementOk then decrement_bot_counter s accountId else s
    (.error e, s, log)

/-- Failure oracle for one `destroy_bot` execution.  `retry_with_backoff`
retries a failing step in place, so each retried step collapses to its net
outcome. -/
structure DestroyOracle where
  doDestroy : DODestroyOutcome
  markDestroyedOk : Bool
  updateDropletOk : Bool
  deleteOk : Bool
  decrementOk : Bool
deriving Repr, DecidableEq

/-- The fault-free oracle. -/
def destroyOracleOk : DestroyOracle := ⟨.ok, true, true, true, true⟩

/-- The store half of `destroy_bot` (provisioning.rs lines 1215-1260): clear
the bot's droplet reference, soft-delete it, and decrement the quota counter
(decrement failure is logged, not surfaced). -/
def destroy_bot_db (o : DestroyOracle) (s : CPState) (log : List RepoCall)
    (botId : Nat) (bot : BotRow) :
    Except ProvisioningError Unit × CPState × List RepoCall :=
  let log := log ++ [.updateDroplet botId]
  if ¬ o.updateDropletOk then (.error (.repository .databaseError), s, log) else
  let s := bots_update_droplet s botId none
  let log := log ++ [.botDelete botId]
  if ¬ o.deleteOk then (.error (.repository .databaseError), s, log) else
  let s := bots_delete s botId
  let log := log ++ [.decrementBotCounter bot.accountId]
  let s := if o.decrementOk then decrement_bot_counter s bot.accountId else s
  (.ok (), s, log)

/-- `destroy_bot` (provisioning.rs lines 1147-1261): fetch the bot; if it has
a droplet, destroy it at the IaaS (`Ok` and `NotFound` both count as success,
then `mark_destroyed` with retry), then run the store half. -/
def destroy_bot (o : DestroyOracle) (s : CPState) (botId : Nat) :
    Except ProvisioningError Unit × CPState × List RepoCall :=
  match s.bots botId with
  | none => (.error (.repository .notFound), s, [])
  | some bot =>
    match bot.dropletId with
    | some dropletId =>
        let log := [RepoCall.doDestroyDroplet dropletId]
        if o.doDestroy = .err then (.error (.digitalOcean .other), s, log) else
        let log := log ++ [.markDestroyed dropletId]
        if ¬ o.markDestroyedOk then (.error (.repository .databaseError), s, log) else
        destroy_bot_db o (droplets_mark_destroyed s dropletId) log botId bot
    | none => destroy_bot_db o s [] botId bot

/-- Failure oracle for `pause_bot`. -/
structure PauseOracle where
  shutdownOk : Bool
  updateStatusOk : Bool
deriving Repr, DecidableEq

/-- The fault-free oracle. -/
def pauseOracleOk : PauseOracle := ⟨true, true⟩

/-- `pause_bot` (provisioning.rs lines 1263-1275): fetch the bot, shut its
droplet down when present, and set status `paused`.  There is no check of the
current status. -/
def pause_bot (o : PauseOracle) (s : CPState) (botId : Nat) :
    Except ProvisioningError Unit × CPState :=
  match s.bots botId with
  | none => (.error (.repository .notFound), s)
  | some bot =>
    if bot.dropletId.isSome ∧ ¬ o.shutdownOk then (.error (.digitalOcean .other), s)
    else if ¬ o.updateStatusOk then (.error (.repository .databaseError), s)
    else (.ok (), bots_update_status s botId .paused)

/-- Outcome of the IaaS `get_droplet` call inside `resume_bot`. -/
inductive DOGetOutcome
  | off
  | active
  | new
  | otherStatus
  | notFound
  | err
deriving Repr, DecidableEq

/-- Failure oracle for `resume_bot`. -/
structure ResumeOracle where
  getDroplet : DOGetOutcome
  rebootOk : Bool
  updateStatusOk : Bool
deriving Repr, DecidableEq

/-- `resume_bot` (provisioning.rs lines 1277-1338): require status `paused`;
inspect the droplet at the IaaS (`off` → reboot, `active` → accept, anything
else refused), then set status `online`. -/
def resume_bot (o : ResumeOracle) (s : CPState) (botId : Nat) :
    Except ProvisioningError Unit × CPState :=
  match s.bots botId with
  | none => (.error (.repository .notFound), s)
  | some bot =>
    if bot.status ≠ .paused then (.error .invalidConfig, s)
    else
      match bot.dropletId with
      | none => (.error .invalidConfig, s)
      | some _ =>
        match o.getDroplet with
        | .off =>
            if ¬ o.rebootOk then (.error (.digitalOcean .other), s)
            else if ¬ o.updateStatusOk then (.error (.repository .databaseError), s)
            else (.ok (), bots_update_status s botId .online)
        | .active =>
            if ¬ o.updateStatusOk then (.error (.repository .databaseError), s)
            else (.ok (), bots_update_status s botId .online)
        | .new => (.error .invalidConfig, s)
        | .otherStatus => (.error .invalidConfig, s)
        | .notFound => (.error .invalidConfig, s)
        | .err => (.error (.digitalOcean .other), s)

/-- `redeploy_bot` (provisioning.rs lines 1340-1366): destroy any existing
droplet, load the latest config (`latestConfig` stands for the result of the
`get_latest_for_bot` query), clear `droplet_id`, and spawn again.  There is
no check of the current status. -/
def redeploy_bot (o : CreateOracle) (doDestroy : DODestroyOutcome)
    (markDestroyedOk : Bool) (latestConfig : Option ConfigRow)
    (s : CPState) (botId : Nat) (token : String) :
    Except ProvisioningError Unit × CPState × List RepoCall :=
  match s.bots botId with
  | none => (.error (.repository .notFound), s, [])
  | some bot =>
    let step1 :
        Except ProvisioningError Unit × CPState × List RepoCall :=
      match bot.dropletId with
      | some dropletId =>
          let log := [RepoCall.doDestroyDroplet dropletId]
          if doDestroy = .err then (.error (.digitalOcean .other), s, log) else
          let log := log ++ [.markDestroyed dropletId]
          if ¬ markDestroyedOk then (.error (.repository .databaseError), s, log) else
          (.ok (), droplets_mark_destroyed s dropletId, log)
      | none => (.ok (), s, [])
    match step1 with
    | (.error e, s, log) => (.error e, s, log)
    | (.ok _, s, log) =>
      match latestConfig with
      | none => (.error .invalidConfig, s, log)
      | some _ => spawn_bot o s log botId token

/-- `true` exactly on the two precondition errors of `acknowledge_config`:
`ConfigNotFound` and `ConfigVersionConflict`. -/
def isAckPrecheckError : Except LifecycleError Unit → Bool
  | .error (.configNotFound _) => true
  | .error (.configVersionConflict _ _) => true
  | _ => false

/-- A state for exercising `acknowledge_config`: bot 1 is `provisioning` with
`desired = some 5`; configs 4 and 5 both belong to bot 1. -/
def sAck : CPState :=
  { bots := fun i => if i = 1 then
      some { accountId := 3, name := "b", status := .provisioning, dropletId := none,
             desiredConfigVersionId := some 5, appliedConfigVersionId := some 4,
             registrationToken := none, lastHeartbeatAt := none }
      else none,
    configs := fun i =>
      if i = 4 then some { botId := 1, version := 1 }
      else if i = 5 then some { botId := 1, version := 2 }
      else none,
    droplets := fun _ => none,
    counter := fun _ => 1,
    maxBots := fun _ => 2,
    nextVer := fun _ => 2 }

/-- An all-success `CreateOracle` whose IaaS create yields droplet `dropId`. -/
def createOracleOkWith (dropId : Nat) : CreateOracle :=
  { accountExists := true, incrementOk := true, botCreateOk := true, encryptOk := true,
    configCreateOk := true, updateCfgVerOk := true, statusProvisioningOk := true,
    regTokenOk := true, doCreate := .ok dropId, statusPendingOk := true,
    statusErrOnDoFailOk := true, dropletInsertOk := true, dropletAssignOk := true,
    botUpdateDropletOk := true, statusErrOnDbFailOk := true, hardDeleteOk := true,
    decrementOk := true }

/-- A soft-deleted bot row: status `destroyed`, droplet cleared, desired
config pointer still set. -/
def rowC6 : BotRow :=
  { accountId := 5, name := "d", status := .destroyed, dropletId := none,
    desiredConfigVersionId := some 30, appliedConfigVersionId := none,
    registrationToken := none, lastHeartbeatAt := none }

/-- A state holding the destroyed bot `rowC6` at id 9 and its config 30. -/
def sC6 : CPState :=
  { bots := fun i => if i = 9 then some rowC6 else none,
    configs := fun i => if i = 30 then some { botId := 9, version := 1 } else none,
    droplets := fun _ => none,
    counter := fun _ => 1,
    maxBots := fun _ => 2,
    nextVer := fun _ => 1 }

/-- A state whose account 1 is already at its quota (`current = max = 2`). -/
def sC2full : CPState :=
  { bots := fun _ => none,
    configs := fun _ => none,
    droplets := fun _ => none,
    counter := fun _ => 2,
    maxBots := fun _ => 2,
    nextVer := fun _ => 0 }

/-- A `CreateOracle` whose only failure is the config-row insert. -/
def oC2fail : CreateOracle := { createOracleOkWith 0 with configCreateOk := false }

/-- The empty store with per-account quota 2. -/
def sEmpty : CPState :=
  { bots := fun _ => none, configs := fun _ => none, droplets := fun _ => none,
    counter := fun _ => 0, maxBots := fun _ => 2, nextVer := fun _ => 0 }

/-- Two live bots (10 and 11) created on account 1 from the empty store. -/
def sC3b : CPState :=
  (create_bot (createOracleOkWith 101)
    (create_bot (createOracleOkWith 100) sEmpty 1 10 20 "a" "ta").2.1
    1 11 21 "b" "tb").2.1

/-- `sC3b` after one `destroy_bot` of bot 10. -/
def sC3c : CPState := (destroy_bot destroyOracleOk sC3b 10).2.1

/-- `sC3c` after a second `destroy_bot` of bot 10. -/
def sC3d : CPState := (destroy_bot destroyOracleOk sC3c 10).2.1

/-- `sC3d` after a third `destroy_bot` of bot 10. -/
def sC3e : CPState := (destroy_bot destroyOracleOk sC3d 10).2.1

/-! ## C4 — rate-limited spawn holds the reservation -/

/-- A `CreateOracle` that is all-success except the IaaS create, which is
rate-limited. -/
def rateLimitedOracle : CreateOracle :=
  { createOracleOkWith 0 with doCreate := .rateLimited }

/-! ## AES-256-GCM secrets envelope (src/infrastructure/crypto.rs)

`SecretsEncryption` wraps the `aes_gcm` crate's `Aes256Gcm` (an external
dependency whose behavior is the NIST standard), embedded here executably:
AES-256 (FIPS 197) and GCM (NIST SP 800-38D) over byte lists, with the
random 12-byte nonce passed explicitly. -/

/-- The AES S-box (FIPS 197, figure 7). -/
def sboxTable : List Nat :=
  [0x63, 0x7c, 0x77, 0x7b, 0xf2, 0x6b, 0x6f, 0xc5, 0x30, 0x01, 0x67, 0x2b,
   0xfe, 0xd7, 0xab, 0x76, 0xca, 0x82, 0xc9, 0x7d, 0xfa, 0x59, 0x47, 0xf0,
   0xad, 0xd4, 0xa2, 0xaf, 0x9c, 0xa4, 0x72, 0xc0, 0xb7, 0xfd, 0x93, 0x26,
   0x36, 0x3f, 0xf7, 0xcc, 0x34, 0xa5, 0xe5, 0xf1, 0x71, 0xd8, 0x31, 0x15,
   0x04, 0xc7, 0x23, 0xc3, 0x18, 0x96, 0x05, 0x9a, 0x07, 0x12, 0x80, 0xe2,
   0xeb, 0x27, 0xb2, 0x75, 0x09, 0x83, 0x2c, 0x1a, 0x1b, 0x6e, 0x5a, 0xa0,
   0x52, 0x3b, 0xd6, 0xb3, 0x29, 0xe3, 0x2f, 0x84, 0x53, 0xd1, 0x00, 0xed,
   0x20, 0xfc, 0xb1, 0x5b, 0x6a, 0xcb, 0xbe, 0x39, 0x4a, 0x4c, 0x58, 0xcf,
   0xd0, 0xef, 0xaa, 0xfb, 0x43, 0x4d, 0x33, 0x85, 0x45, 0xf9, 0x02, 0x7f,
   0x50, 0x3c, 0x9f, 0xa8, 0x51, 0xa3, 0x40, 0x8f, 0x92, 0x9d, 0x38, 0xf5,
   0xbc, 0xb6, 0xda, 0x21, 0x10, 0xff, 0xf3, 0xd2, 0xcd, 0x0c, 0x13, 0xec,
   0x5f, 0x97, 0x44, 0x17, 0xc4, 0xa7, 0x7e, 0x3d, 0x64, 0x5d, 0x19, 0x73,
   0x60, 0x81, 0x4f, 0xdc, 0x22, 0x2a, 0x90, 0x88, 0x46, 0xee, 0xb8, 0x14,
   0xde, 0x5e, 0x0b, 0xdb, 0xe0, 0x32, 0x3a, 0x0a, 0x49, 0x06, 0x24, 0x5c,
   0xc2, 0xd3, 0xac, 0x62, 0x91, 0x95, 0xe4, 0x79, 0xe7, 0xc8, 0x37, 0x6d,
   0x8d, 0xd5, 0x4e, 0xa9, 0x6c, 0x56, 0xf4, 0xea, 0x65, 0x7a, 0xae, 0x08,
   0xba, 0x78, 0x25, 0x2e, 0x1c, 0xa6, 0xb4, 0xc6, 0xe8, 0xdd, 0x74, 0x1f,
   0x4b, 0xbd, 0x8b, 0x8a, 0x70, 0x3e, 0xb5, 0x66, 0x48, 0x03, 0xf6, 0x0e,
   0x61, 0x35, 0x57, 0xb9, 0x86, 0xc1, 0x1d, 0x9e, 0xe1, 0xf8, 0x98, 0x11,
   0x69, 0xd9, 0x8e, 0x94, 0x9b, 0x1e, 0x87, 0xe9, 0xce, 0x55, 0x28, 0xdf,
   0x8c, 0xa1, 0x89, 0x0d, 0xbf, 0xe6, 0x42, 0x68, 0x41, 0x99, 0x2d, 0x0f,
   0xb0, 0x54, 0xbb, 0x16]

/-- S-box lookup. -/
def sbox (n : Nat) : Nat := sboxTable.getD n 0

/-- GF(2^8) doubling (`xtime`). -/
def xtime (b : Nat) : Nat := if b < 0x80 then b * 2 else (b * 2) ^^^ 0x11B

/-- Big-endian word rotation by one byte. -/
def rotWord (w : Nat) : Nat := ((w <<< 8) ||| (w >>> 24)) % 4294967296

/-- S-box applied to each byte of a 32-bit word. -/
def subWord (w : Nat) : Nat :=
  (sbox ((w >>> 24) % 256) <<< 24) ||| (sbox ((w >>> 16) % 256) <<< 16) |||
    (sbox ((w >>> 8) % 256) <<< 8) ||| sbox (w % 256)

/-- The AES round constants used by the AES-256 key schedule. -/
def rcon : List Nat := [0x01, 0x02, 0x04, 0x08, 0x10, 0x20, 0x40]

/-- AES-256 key expansion step: extend the word list by `n` words. -/
def expandKeyAux (ws : List Nat) : Nat → List Nat
  | 0 => ws
  | n + 1 =>
      let i := ws.length
      let prev := ws.getD (i - 1) 0
      let temp :=
        if i % 8 = 0 then subWord (rotWord prev) ^^^ (rcon.getD (i / 8 - 1) 0 <<< 24)
        else if i % 8 = 4 then subWord prev
        else prev
      expandKeyAux (ws ++ [w32 (ws.getD (i - 8) 0 ^^^ temp)]) n

/-- AES-256 key expansion: 8 key words extended to 60. -/
def expandKey (key : List Nat) : List Nat := expandKeyAux (toWords key) 52

/-- SubBytes. -/
def subBytes (b : List Nat) : List Nat := b.map sbox

/-- ShiftRows on the 16-byte column-major state. -/
def shiftRows : List Nat → List Nat
  | [a0, a1, a2, a3, a4, a5, a6, a7, a8, a9, a10, a11, a12, a13, a14, a15] =>
      [a0, a5, a10, a15, a4, a9, a14, a3, a8, a13, a2, a7, a12, a1, a6, a11]
  | l => l

/-- MixColumns on one 4-byte column. -/
def mixColumn : List Nat → List Nat
  | [a0, a1, a2, a3] =>
      [xtime a0 ^^^ (xtime a1 ^^^ a1) ^^^ a2 ^^^ a3,
       a0 ^^^ xtime a1 ^^^ (xtime a2 ^^^ a2) ^^^ a3,
       a0 ^^^ a1 ^^^ xtime a2 ^^^ (xtime a3 ^^^ a3),
       (xtime a0 ^^^ a0) ^^^ a1 ^^^ a2 ^^^ xtime a3]
  | l => l

/-- MixColumns over the whole state. -/
def mixColumns : List Nat → List Nat
  | a0 :: a1 :: a2 :: a3 :: rest => mixColumn [a0, a1, a2, a3] ++ mixColumns rest
  | l => l

/-- The AES rounds after the initial AddRoundKey: full rounds for every key
but the last, which closes without MixColumns. -/
def aesRounds (rks : List (List Nat)) (b : List Nat) : List Nat :=
  match rks with
  | [] => b
  | [last] => List.zipWith Nat.xor (shiftRows (subBytes b)) last
  | rk :: rest => aesRounds rest (List.zipWith Nat.xor (mixColumns (shiftRows (subBytes b))) rk)

/-- AES-256 block encryption of a 16-byte block. -/
def aesEncryptBlock (key block : List Nat) : List Nat :=
  let ws := expandKey key
  let rks := (List.range 15).map fun r => wordsToBytes ((ws.drop (4 * r)).take 4)
  match rks with
  | [] => block
  | rk0 :: rest => aesRounds rest (List.zipWith Nat.xor block rk0)

/-- Big-endian byte-list to natural. -/
def bytesToNatBE (l : List Nat) : Nat := l.foldl (fun acc b => acc * 256 + b) 0

/-- Big-endian fixed-length byte encoding of a natural. -/
def natToBytesBE (len n : Nat) : List Nat :=
  (List.range len).map fun i => (n >>> (8 * (len - 1 - i))) % 256

/-- The GCM reduction constant `R = 0xE1 << 120`. -/
def gcmR : Nat := 0xE1000000000000000000000000000000

/-- GF(2^128) multiplication in GCM's bit-reflected representation
(NIST SP 800-38D, algorithm 1). -/
def gfMul (x y : Nat) : Nat :=
  ((List.range 128).foldl
    (fun (zv : Nat × Nat) i =>
      let z := if (x >>> (127 - i)) % 2 = 1 then zv.1 ^^^ zv.2 else zv.1
      let v := if zv.2 % 2 = 1 then (zv.2 >>> 1) ^^^ gcmR else zv.2 >>> 1
      (z, v))
    (0, y)).1

/-- GHASH over complete 16-byte blocks. -/
def ghashBlocks (h : Nat) (blocks : List (List Nat)) : Nat :=
  blocks.foldl (fun y b => gfMul (y ^^^ bytesToNatBE b) h) 0

/-- Split into 16-byte chunks (fuelled so that it reduces in the kernel). -/
def chunks16Aux : Nat → List Nat → List (List Nat)
  | _, [] => []
  | 0, _ => []
  | fuel + 1, l => l.take 16 :: chunks16Aux fuel (l.drop 16)

/-- Split into 16-byte chunks. -/
def chunks16 (l : List Nat) : List (List Nat) := chunks16Aux l.length l

/-- Zero-pad to a multiple of 16 bytes. -/
def gcmPad (l : List Nat) : List Nat :=
  l ++ List.replicate ((16 - l.length % 16) % 16) 0

/-- The GCM authentication tag over the ciphertext (no additional
authenticated data, 12-byte nonce): `E(K, J0) ⊕ GHASH_H(pad(C) ‖ len)`. -/
def gcmTag (key nonce ct : List Nat) : List Nat :=
  let h := bytesToNatBE (aesEncryptBlock key (List.replicate 16 0))
  let j0 := nonce ++ [0, 0, 0, 1]
  let sBlocks := chunks16 (gcmPad ct) ++ [natToBytesBE 8 0 ++ natToBytesBE 8 (ct.length * 8)]
  List.zipWith Nat.xor (aesEncryptBlock key j0) (natToBytesBE 16 (ghashBlocks h sBlocks))

/-- Increment the low 32 bits of a counter block. -/
def inc32 (block : List Nat) : List Nat :=
  block.take 12 ++ natToBytesBE 4 ((bytesToNatBE (block.drop 12) + 1) % 4294967296)

/-- `n` consecutive encrypted counter blocks. -/
def ctrBlocksAux (key cb : List Nat) : Nat → List Nat
  | 0 => []
  | n + 1 => aesEncryptBlock key cb ++ ctrBlocksAux key (inc32 cb) n

/-- The first `n` keystream bytes for the given key and 12-byte nonce, CTR
mode starting at `inc32(J0)`. -/
def keystream (key nonce : List Nat) (n : Nat) : List Nat :=
  (ctrBlocksAux key (inc32 (nonce ++ [0, 0, 0, 1])) ((n + 15) / 16)).take n

/-- GCTR: XOR with the keystream. -/
def gctr (key nonce pt : List Nat) : List Nat :=
  List.zipWith Nat.xor pt (keystream key nonce pt.length)

/-- `EncryptionError` (crypto.rs lines 10-18). -/
inductive EncryptionError
  | encryptionFailed
  | decryptionFailed
  | invalidKeyLength
deriving Repr, DecidableEq

/-- UTF-8 decoding, as `String::from_utf8` accepts it: canonical encodings
only — continuation bytes in range, no overlong forms, no surrogates, no
code points above `0x10FFFF`. -/
def utf8Decode : List Nat → Option (List Char)
  | [] => some []
  | b0 :: rest =>
    if b0 < 0x80 then
      (utf8Decode rest).map fun cs => Char.ofNat b0 :: cs
    else if b0 < 0xC2 ∨ 0xF5 ≤ b0 then none
    else
      match rest with
      | [] => none
      | b1 :: rest1 =>
        if b0 < 0xE0 then
          if 0x80 ≤ b1 ∧ b1 < 0xC0 then
            (utf8Decode rest1).map fun cs =>
              Char.ofNat ((b0 - 0xC0) * 64 + (b1 - 0x80)) :: cs
          else none
        else
          match rest1 with
          | [] => none
          | b2 :: rest2 =>
            if b0 < 0xF0 then
              if (0x80 ≤ b1 ∧ b1 < 0xC0) ∧ (0x80 ≤ b2 ∧ b2 < 0xC0) ∧
                  (b0 = 0xE0 → 0xA0 ≤ b1) ∧ (b0 = 0xED → b1 < 0xA0) then
                (utf8Decode rest2).map fun cs =>
                  Char.ofNat ((b0 - 0xE0) * 4096 + (b1 - 0x80) * 64 + (b2 - 0x80)) :: cs
              else none
            else
              match rest2 with
              | [] => none
              | b3 :: rest3 =>
                if (0x80 ≤ b1 ∧ b1 < 0xC0) ∧ (0x80 ≤ b2 ∧ b2 < 0xC0) ∧
                    (0x80 ≤ b3 ∧ b3 < 0xC0) ∧
                    (b0 = 0xF0 → 0x90 ≤ b1) ∧ (b0 = 0xF4 → b1 < 0x90) then
                  (utf8Decode rest3).map fun cs =>
                    Char.ofNat ((b0 - 0xF0) * 262144 + (b1 - 0x80) * 4096 +
                      (b2 - 0x80) * 64 + (b3 - 0x80)) :: cs
                else none

/-- `SecretsEncryption::encrypt` (crypto.rs lines 92-108), the random 12-byte
nonce passed explicitly: AES-256-GCM of the UTF-8 plaintext, output
`nonce ‖ ciphertext ‖ tag`. -/
def encrypt (key nonce : List Nat) (plaintext : String) : List Nat :=
  let pt := strBytes plaintext
  let ct := gctr key nonce pt
  nonce ++ ct ++ gcmTag key nonce ct

/-- `SecretsEncryption::decrypt` (crypto.rs lines 110-126): require at least
the 12-byte nonce (the crate further requires the 16-byte tag), split, verify
the tag, decrypt, and decode UTF-8; every failure is `DecryptionFailed`. -/
def decrypt (key ciphertext : List Nat) : Except EncryptionError String :=
  if ciphertext.length < 12 then .error .decryptionFailed
  else
    let nonce := ciphertext.take 12
    let encrypted := ciphertext.drop 12
    if encrypted.length < 16 then .error .decryptionFailed
    else
      let ct := encrypted.take (encrypted.length - 16)
      let tag := encrypted.drop (encrypted.length - 16)
      if gcmTag key nonce ct ≠ tag then .error .decryptionFailed
      else
        match utf8Decode (gctr key nonce ct) with
        | none => .error .decryptionFailed
        | some chars => .ok ⟨chars⟩

/-! Helper lemmas about dropWhile / trimming. -/

theorem headNoWs_dropWhile (p : Char → Bool) (l : List Char) :
    match (l.dropWhile p).head? with
    | none => True
    | some c => p c = false := by
  induction l with
  | nil => simp [List.dropWhile]
  | cons c t ih =>
    by_cases h : p c
    · simpa [List.dropWhile, h] using ih
    · simp [List.dropWhile, h]

theorem getLast?_dropWhile (p : Char → Bool) (l : List Char) :
    l.dropWhile p = [] ∨ (l.dropWhile p).getLast? = l.getLast? := by
  induction l with
  | nil => exact Or.inl rfl
  | cons c t ih =>
    by_cases h : p c
    · rw [List.dropWhile_cons, if_pos h]
      rcases ih with h' | h'
      · exact Or.inl h'
      · cases t with
        | nil => exact Or.inl (by simp [List.dropWhile])
        | cons d u => exact Or.inr (by rw [h', List.getLast?_cons_cons])
    · rw [List.dropWhile_cons, if_neg h]
      exact Or.inr rfl

theorem mem_rustTrim (c : Char) (l : List Char) (h : c ∈ rustTrim l) : c ∈ l := by
  unfold rustTrim at h
  have h1 := (List.dropWhile_sublist (l := (l.reverse.dropWhile isRustWhitespace).reverse)
    (p := isRustWhitespace)).mem h
  have h2 := List.mem_reverse.mp h1
  have h3 := (List.dropWhile_sublist (l := l.reverse) (p := isRustWhitespace)).mem h2
  exact List.mem_reverse.mp h3

theorem asciiWs_rustWs (c : Char) (h : isAsciiWhitespace c = true) :
    isRustWhitespace c = true := by
  unfold isAsciiWhitespace at h
  simp only [Bool.or_eq_true, beq_iff_eq] at h
  rcases h with ((((h | h) | h) | h) | h) <;> subst h <;> decide

theorem dropWhile_head?_false (p : Char → Bool) (l : List Char) (c : Char)
    (h : (l.dropWhile p).head? = some c) : p c = false := by
  induction l with
  | nil => simp [List.dropWhile] at h
  | cons d t ih =>
    by_cases hd : p d
    · exact ih (by simpa [List.dropWhile_cons, hd] using h)
    · rw [List.dropWhile_cons, if_neg hd] at h
      simp only [List.head?_cons, Option.some.injEq] at h
      subst h
      exact Bool.eq_false_iff.mpr hd

theorem headNoAsciiWs_of_head? (l : List Char)
    (h : ∀ c, l.head? = some c → isRustWhitespace c = false) :
    headNoAsciiWs l = true := by
  cases l with
  | nil => rfl
  | cons c t =>
    have hc := h c rfl
    show (!isAsciiWhitespace c) = true
    cases hA : isAsciiWhitespace c
    · rfl
    · exact absurd (asciiWs_rustWs c hA) (by simp [hc])

theorem headNoAsciiWs_take64 (l : List Char) :
    headNoAsciiWs (l.take 64) = headNoAsciiWs l := by
  cases l with
  | nil => rfl
  | cons c t => rfl

/-- Counterexample to claim C5 as stated: the sanitizer truncates *after*
trimming, so an input whose trimmed form is longer than 64 code points and has
a space at position 63 sanitizes to a name with a trailing ASCII space. -/
theorem claim_C5_counterexample :
    ¬ sanitizeBotNameClaim ⟨List.replicate 63 'a' ++ [' ', 'b']⟩ := by
  unfold sanitizeBotNameClaim
  decide

/-- C5 (amended): for every input, `sanitize_bot_name` yields at most 64 code
points, all from `[A-Za-z0-9 _-]`, with no leading ASCII whitespace; and when
no truncation occurs (the trimmed intermediate has at most 64 code points) the
output also has no trailing ASCII whitespace.  Truncation may expose a single
trailing space, as the counterexample shows. -/
theorem claim_C5_sanitize_bot_name (input : String) :
    (sanitize_bot_name input).data.length ≤ 64 ∧
    (sanitize_bot_name input).data.all allowedNameChar = true ∧
    headNoAsciiWs (sanitize_bot_name input).data = true ∧
    ((rustTrim (input.data.map sanitizeMapChar)).length ≤ 64 →
      headNoAsciiWs (sanitize_bot_name input).data.reverse = true) := by
  have hmax : MAX_BOT_NAME_LENGTH = 64 := rfl
  set s := input.data.map sanitizeMapChar with hs
  have hout : (sanitize_bot_name input).data =
      if MAX_BOT_NAME_LENGTH < (rustTrim s).length then (rustTrim s).take MAX_BOT_NAME_LENGTH
      else rustTrim s := by
    rw [hs]
    by_cases h : MAX_BOT_NAME_LENGTH < (rustTrim (input.data.map sanitizeMapChar)).length
    · simp [sanitize_bot_name, h]
    · simp [sanitize_bot_name, h]
  have hallowed : ∀ c ∈ rustTrim s, allowedNameChar c = true := by
    intro c hc
    rcases List.mem_map.mp (mem_rustTrim c _ (hs ▸ hc)) with ⟨x, _, rfl⟩
    show allowedNameChar (sanitizeMapChar x) = true
    unfold sanitizeMapChar
    by_cases hx : allowedNameChar x = true
    · rw [if_pos hx]; exact hx
    · rw [if_neg hx]; decide
  refine ⟨?_, ?_, ?_, ?_⟩
  · rw [hout]
    split
    · rw [hmax]
      simp
    · omega
  · rw [hout]
    rw [List.all_eq_true]
    intro c hc
    split at hc
    · exact hallowed c ((List.take_sublist _ _).mem hc)
    · exact hallowed c hc
  · rw [hout]
    have hhead : headNoAsciiWs (rustTrim s) = true := by
      apply headNoAsciiWs_of_head?
      intro c hc
      exact dropWhile_head?_false isRustWhitespace _ c hc
    split
    · rw [show MAX_BOT_NAME_LENGTH = 64 from rfl, headNoAsciiWs_take64]; exact hhead
    · exact hhead
  · intro hlen
    rw [hout, if_neg (by omega)]
    rcases getLast?_dropWhile isRustWhitespace
        ((s.reverse.dropWhile isRustWhitespace).reverse) with h | h
    · rw [show rustTrim s = (s.reverse.dropWhile isRustWhitespace).reverse.dropWhile
          isRustWhitespace from rfl, h]
      rfl
    · apply headNoAsciiWs_of_head?
      intro c hc
      rw [List.head?_reverse] at hc
      have : ((s.reverse.dropWhile isRustWhitespace).reverse).getLast? = some c := by
        rw [← h]; exact hc
      rw [List.getLast?_reverse] at this
      exact dropWhile_head?_false isRustWhitespace _ c this

/-- Witness for C5: a concrete input exercising the amended theorem, with its
hypothesis discharged by evaluation. -/
theorem claim_C5_witness :
    ((rustTrim (" my bot ".data.map sanitizeMapChar)).length ≤ 64) ∧
    ((sanitize_bot_name " my bot ").data.length ≤ 64 ∧
     (sanitize_bot_name " my bot ").data.all allowedNameChar = true ∧
     headNoAsciiWs (sanitize_bot_name " my bot ").data = true ∧
     headNoAsciiWs (sanitize_bot_name " my bot ").data.reverse = true) :=
  ⟨by decide,
   (claim_C5_sanitize_bot_name " my bot ").1,
   (claim_C5_sanitize_bot_name " my bot ").2.1,
   (claim_C5_sanitize_bot_name " my bot ").2.2.1,
   (claim_C5_sanitize_bot_name " my bot ").2.2.2 (by decide)⟩

/-- Sanity check of the SHA-256 embedding against the FIPS 180-4 test vector
for `"abc"`. -/
theorem sha256_fips_vector :
    bytesToHex (sha256 (strBytes "abc")) =
      "ba7816bf8f01cfea414140de5dae2223b00361a396177a9cb410ff61f20015ad".data := by
  decide

theorem tokenMatches_iff (stored : Option String) (token : String) :
    tokenMatches stored token = true ↔
      (stored = some token ∨ stored = some (hash_registration_token token)) := by
  cases stored with
  | none => simp [tokenMatches]
  | some s => simp [tokenMatches]

/-- Counterexample to C1 as stated: presenting the *stored digest itself* as
the bearer token authenticates (the SQL matches the raw presented string
against the stored value), even though the stored value is not the digest of
the presented string. -/
theorem claim_C1_counterexample :
    ¬ (get_by_id_with_token botsC1 1 (hash_registration_token "tok") = .ok rowC1 ↔
        rowC1.registrationToken =
          some (hash_registration_token (hash_registration_token "tok"))) := by
  decide

/-- C1 (amended): `get_by_id_with_token(id, token)` returns the stored bot iff
the stored registration-token value equals the presented string itself *or*
equals `H(token)`; in particular both the plaintext token and the stored
digest itself authenticate. -/
theorem claim_C1_get_by_id_with_token (bots : Nat → Option BotRow) (id : Nat)
    (token : String) (row : BotRow) (h : bots id = some row) :
    get_by_id_with_token bots id token = .ok row ↔
      (row.registrationToken = some token ∨
        row.registrationToken = some (hash_registration_token token)) := by
  simp only [get_by_id_with_token, h]
  by_cases hm : tokenMatches row.registrationToken token = true
  · rw [if_pos hm]
    exact ⟨fun _ => (tokenMatches_iff _ _).mp hm, fun _ => rfl⟩
  · rw [if_neg hm]
    constructor
    · intro hc; exact absurd hc (by simp)
    · intro hd; exact absurd ((tokenMatches_iff _ _).mpr hd) hm

/-- Witness for C1: the amended theorem applied at a concrete table, id and
token. -/
theorem claim_C1_witness :
    botsC1w 2 = some rowC1w ∧
    (get_by_id_with_token botsC1w 2 "t" = .ok rowC1w ↔
      (rowC1w.registrationToken = some "t" ∨
        rowC1w.registrationToken = some (hash_registration_token "t"))) :=
  ⟨rfl, claim_C1_get_by_id_with_token botsC1w 2 "t" rowC1w rfl⟩

/-- C10: `acknowledge_config` is atomic on its precondition-error paths — when
it returns `ConfigNotFound` (config's `bot_id` mismatch) or
`ConfigVersionConflict` (stale ack), the post-state is exactly the pre-state,
because both checks precede the first write. -/
theorem claim_C10_ack_error_atomic (o : AckOracle) (s : CPState) (botId configId : Nat)
    (h : isAckPrecheckError (acknowledge_config o s botId configId).1 = true) :
    (acknowledge_config o s botId configId).2 = s := by
  unfold acknowledge_config at h ⊢
  cases hc : s.configs configId with
  | none => simp [hc, isAckPrecheckError] at h
  | some config =>
    rw [hc] at h
    simp only [] at h
    by_cases hcb : config.botId ≠ botId
    · simp [hcb]
    · rw [if_neg hcb] at h
      simp only [if_neg hcb]
      cases hbot : s.bots botId with
      | none => simp [hbot, isAckPrecheckError] at h
      | some bot =>
        rw [hbot] at h
        simp only [] at h
        by_cases hd : bot.desiredConfigVersionId ≠ some configId
        · simp [hd]
        · rw [if_neg hd] at h
          simp only [if_neg hd]
          by_cases h1 : o.updateConfigVersionOk = true
          · by_cases h2 : bot.status = .provisioning ∨ bot.status = .pending
            · by_cases h3 : o.updateStatusOk = true
              · simp [h1, h2, h3, isAckPrecheckError] at h
              · simp [h1, h2, h3, isAckPrecheckError] at h
            · simp [h1, h2, isAckPrecheckError] at h
          · simp [h1, isAckPrecheckError] at h

/-- Witness for C10: a stale acknowledgment (`configId = 4` while desired is
5) returns `ConfigVersionConflict` and leaves the state untouched. -/
theorem claim_C10_witness :
    isAckPrecheckError (acknowledge_config ackOracleOk sAck 1 4).1 = true ∧
    (acknowledge_config ackOracleOk sAck 1 4).2 = sAck :=
  ⟨by decide, claim_C10_ack_error_atomic ackOracleOk sAck 1 4 (by decide)⟩

/-- Counterexample to C7 as stated: at a concrete stale acknowledgment the
service returns `ConfigVersionConflict`, but the wired HTTP handler for
`POST /bot/\x7bid\x7d/config_ack` answers 400, not 409 (the conflict-aware
mapper `map_ack_config_error` exists in the source but no route calls it). -/
theorem claim_C7_counterexample :
    (acknowledge_config ackOracleOk sAck 1 4).1 =
      .error (.configVersionConflict 4 (some 5)) ∧
    ack_config_http_status (acknowledge_config ackOracleOk sAck 1 4).1 = 400 ∧
    ack_config_http_status (acknowledge_config ackOracleOk sAck 1 4).1 ≠ 409 := by
  decide

/-- `acknowledge_config` on a stale config id fails with the conflict error
carrying the acknowledged id and the current desired pointer, before any
write. -/
theorem ack_conflict_lemma (o : AckOracle) (s : CPState)
    (botId configId : Nat) (config : ConfigRow) (bot : BotRow)
    (hc : s.configs configId = some config) (hcb : config.botId = botId)
    (hb : s.bots botId = some bot)
    (hd : bot.desiredConfigVersionId ≠ some configId) :
    acknowledge_config o s botId configId =
      (.error (.configVersionConflict configId bot.desiredConfigVersionId), s) := by
  unfold acknowledge_config
  simp only [hc, hb]
  rw [if_neg (by simp [hcb]), if_pos hd]

/-- `acknowledge_config` on the desired config id succeeds, writes
`applied = desired = config_id`, and promotes a `provisioning`/`pending` bot
to `online`. -/
theorem ack_success_lemma (s : CPState)
    (botId configId : Nat) (config : ConfigRow) (bot : BotRow)
    (hc : s.configs configId = some config) (hcb : config.botId = botId)
    (hb : s.bots botId = some bot)
    (hd : bot.desiredConfigVersionId = some configId) :
    (acknowledge_config ackOracleOk s botId configId).1 = .ok () ∧
    (acknowledge_config ackOracleOk s botId configId).2.bots botId =
      some { bot with
        desiredConfigVersionId := some configId,
        appliedConfigVersionId := some configId,
        status := if bot.status = .provisioning ∨ bot.status = .pending then .online
                  else bot.status } := by
  unfold acknowledge_config
  simp only [hc, hb]
  rw [if_neg (by simp [hcb]), if_neg (by simp [hd])]
  simp only [ackOracleOk]
  rw [if_neg (by decide)]
  by_cases hst : bot.status = .provisioning ∨ bot.status = .pending
  · rw [if_pos hst, if_pos hst]
    refine ⟨rfl, ?_⟩
    simp [bots_update_status, bots_update_config_version, hb]
  · rw [if_neg hst, if_neg hst]
    refine ⟨rfl, ?_⟩
    simp [bots_update_config_version, hb]

/-- C7 (amended): `acknowledge_config` fails with
`ConfigVersionConflict(acknowledged, desired)` whenever the bot's current
`desired_config_version_id` differs from `config_id`; the wired HTTP edge
maps every `acknowledge_config` failure — the conflict included — to
status 400 (the 409-producing mapper is dead code); on success it sets
`applied = desired = config_id` and promotes a `provisioning` or `pending`
bot to `online`. -/
theorem claim_C7_acknowledge_config (o : AckOracle) (s : CPState)
    (botId configId : Nat) (config : ConfigRow) (bot : BotRow)
    (hc : s.configs configId = some config) (hcb : config.botId = botId)
    (hb : s.bots botId = some bot) :
    (bot.desiredConfigVersionId ≠ some configId →
      (acknowledge_config o s botId configId).1 =
        .error (.configVersionConflict configId bot.desiredConfigVersionId) ∧
      ack_config_http_status (acknowledge_config o s botId configId).1 = 400) ∧
    (bot.desiredConfigVersionId = some configId →
      (acknowledge_config ackOracleOk s botId configId).1 = .ok () ∧
      (acknowledge_config ackOracleOk s botId configId).2.bots botId =
        some { bot with
          desiredConfigVersionId := some configId,
          appliedConfigVersionId := some configId,
          status := if bot.status = .provisioning ∨ bot.status = .pending then .online
                    else bot.status }) := by
  constructor
  · intro hd
    rw [ack_conflict_lemma o s botId configId config bot hc hcb hb hd]
    exact ⟨rfl, rfl⟩
  · intro hd
    exact ack_success_lemma s botId configId config bot hc hcb hb hd

/-- Witness for C7: the amended theorem applied at `sAck` twice — once with a
stale config (4) and once with the desired config (5). -/
theorem claim_C7_witness :
    (sAck.configs 4 = some { botId := 1, version := 1 } ∧
     (acknowledge_config ackOracleOk sAck 1 4).1 =
       .error (.configVersionConflict 4 (some 5)) ∧
     ack_config_http_status (acknowledge_config ackOracleOk sAck 1 4).1 = 400) ∧
    (sAck.configs 5 = some { botId := 1, version := 2 } ∧
     (acknowledge_config ackOracleOk sAck 1 5).1 = .ok () ∧
     (acknowledge_config ackOracleOk sAck 1 5).2.bots 1 =
       some { accountId := 3, name := "b", status := .online, dropletId := none,
              desiredConfigVersionId := some 5, appliedConfigVersionId := some 5,
              registrationToken := none, lastHeartbeatAt := none }) := by
  have h4 := (claim_C7_acknowledge_config ackOracleOk sAck 1 4
    { botId := 1, version := 1 }
    { accountId := 3, name := "b", status := .provisioning, dropletId := none,
      desiredConfigVersionId := some 5, appliedConfigVersionId := some 4,
      registrationToken := none, lastHeartbeatAt := none }
    (by decide) (by decide) (by decide)).1 (by decide)
  have h5 := (claim_C7_acknowledge_config ackOracleOk sAck 1 5
    { botId := 1, version := 2 }
    { accountId := 3, name := "b", status := .provisioning, dropletId := none,
      desiredConfigVersionId := some 5, appliedConfigVersionId := some 4,
      registrationToken := none, lastHeartbeatAt := none }
    (by decide) (by decide) (by decide)).2 (by decide)
  exact ⟨⟨by decide, h4.1, h4.2⟩, ⟨by decide, h5.1, by simpa using h5.2⟩⟩

/-- `create_bot_config` refuses a destroyed bot before any state change. -/
theorem create_bot_config_destroyed_lemma (s : CPState) (botId newConfigId : Nat)
    (bot : BotRow) (hb : s.bots botId = some bot) (hd : bot.status = .destroyed) :
    create_bot_config createConfigOracleOk s botId newConfigId =
      (.error (.invalidState .destroyed), s) := by
  unfold create_bot_config
  simp only [hb]
  rw [if_pos hd, hd]

/-- `create_bot_config` on a live bot allocates the next version, stores the
config under it, points `desired` at the new config and leaves `applied`
untouched. -/
theorem create_bot_config_success_lemma (s : CPState) (botId newConfigId : Nat)
    (bot : BotRow) (hb : s.bots botId = some bot) (hd : bot.status ≠ .destroyed)
    (hfresh : s.configs newConfigId = none) :
    (create_bot_config createConfigOracleOk s botId newConfigId).1 =
      .ok { botId := botId, version := s.nextVer botId + 1 } ∧
    (create_bot_config createConfigOracleOk s botId newConfigId).2.configs newConfigId =
      some { botId := botId, version := s.nextVer botId + 1 } ∧
    (create_bot_config createConfigOracleOk s botId newConfigId).2.bots botId =
      some { bot with desiredConfigVersionId := some newConfigId } := by
  unfold create_bot_config
  simp only [hb]
  rw [if_neg hd]
  simp only [createConfigOracleOk]
  rw [if_neg (by decide)]
  unfold configs_create get_next_version_atomic
  simp only [hfresh]
  rw [if_neg (by decide)]
  rw [if_neg (by decide)]
  refine ⟨rfl, ?_, ?_⟩
  · simp [bots_update_config_version, upd]
  · simp [bots_update_config_version, upd, hb]

/-- Counterexample to C6 as stated: `pause_bot` has no destroyed-status guard,
so pausing a destroyed bot mutates its row (status becomes `paused`). -/
theorem claim_C6_counterexample :
    ¬ ((pause_bot pauseOracleOk sC6 9).2.bots 9 = sC6.bots 9) := by
  decide

/-- C6 (amended): `destroyed` is *not* terminal.  Among the listed operations
only `create_bot_config` refuses a destroyed bot (and `resume_bot` refuses
only because it requires status `paused`); `pause_bot` re-statuses the row to
`paused`, `record_heartbeat` writes its heartbeat, `acknowledge_config` with a
matching desired pointer rewrites the config pointers, `destroy_bot` succeeds
again and decrements the quota counter again, and `redeploy_bot` respawns the
destroyed bot. -/
theorem claim_C6_destroyed_not_terminal (s : CPState) (botId : Nat) (bot : BotRow)
    (hb : s.bots botId = some bot) (hd : bot.status = .destroyed) :
    ((pause_bot pauseOracleOk s botId).1 = .ok () ∧
     (pause_bot pauseOracleOk s botId).2.bots botId =
       some { bot with status := .paused }) ∧
    (∀ now, (record_heartbeat s botId now).2.bots botId =
       some { bot with lastHeartbeatAt := some now }) ∧
    (∀ configId config, s.configs configId = some config → config.botId = botId →
      bot.desiredConfigVersionId = some configId →
      (acknowledge_config ackOracleOk s botId configId).1 = .ok () ∧
      (acknowledge_config ackOracleOk s botId configId).2.bots botId =
        some { bot with desiredConfigVersionId := some configId,
                        appliedConfigVersionId := some configId }) ∧
    (bot.dropletId = none →
      (destroy_bot destroyOracleOk s botId).1 = .ok () ∧
      (destroy_bot destroyOracleOk s botId).2.1.counter bot.accountId =
        s.counter bot.accountId - 1) ∧
    ((create_bot_config createConfigOracleOk s botId 0).1 =
        .error (.invalidState .destroyed) ∧
     (create_bot_config createConfigOracleOk s botId 0).2 = s) ∧
    (∀ o : ResumeOracle, (resume_bot o s botId).1 = .error .invalidConfig ∧
      (resume_bot o s botId).2 = s) ∧
    (∀ dropId token cfg, bot.dropletId = none →
      (redeploy_bot (createOracleOkWith dropId) .ok true (some cfg) s botId
          token).2.1.bots botId =
        some { bot with status := .provisioning, dropletId := some dropId,
                        registrationToken := some (hash_registration_token token) }) := by
  refine ⟨?_, ?_, ?_, ?_, ?_, ?_, ?_⟩
  · unfold pause_bot
    simp only [hb]
    rw [if_neg (by simp [pauseOracleOk])]
    rw [if_neg (by decide)]
    exact ⟨rfl, by simp [bots_update_status, hb]⟩
  · intro now
    unfold record_heartbeat
    simp [bots_update_heartbeat, hb]
  · intro configId config hc hcb hdes
    have h := ack_success_lemma s botId configId config bot hc hcb hb hdes
    refine ⟨h.1, ?_⟩
    rw [h.2]
    have : ¬ (bot.status = .provisioning ∨ bot.status = .pending) := by
      rw [hd]; simp
    simp [this]
  · intro hdrop
    unfold destroy_bot
    simp only [hb, hdrop]
    unfold destroy_bot_db
    rw [if_neg (by decide), if_neg (by decide)]
    refine ⟨rfl, ?_⟩
    simp [destroyOracleOk, decrement_bot_counter, bots_delete, bots_update_droplet, updT]
  · rw [create_bot_config_destroyed_lemma s botId 0 bot hb hd]
    exact ⟨rfl, rfl⟩
  · intro o
    unfold resume_bot
    simp only [hb]
    rw [if_pos (by simp [hd])]
    exact ⟨rfl, rfl⟩
  · intro dropId token cfg hdrop
    unfold redeploy_bot
    simp only [hb, hdrop]
    unfold spawn_bot
    simp only [createOracleOkWith]
    rw [if_neg (by decide), if_neg (by decide)]
    rw [if_neg (by decide), if_neg (by decide), if_neg (by decide)]
    simp [bots_update_droplet, droplets_update_bot_assignment, droplets_create,
      bots_update_registration_token, bots_update_status, hb]

/-- Witness for C6: the amended theorem applied at the concrete destroyed bot
`rowC6` in `sC6`. -/
theorem claim_C6_witness :
    sC6.bots 9 = some rowC6 ∧ rowC6.status = .destroyed ∧
    ((pause_bot pauseOracleOk sC6 9).1 = .ok () ∧
     (pause_bot pauseOracleOk sC6 9).2.bots 9 =
       some { rowC6 with status := .paused }) ∧
    (record_heartbeat sC6 9 42).2.bots 9 =
      some { rowC6 with lastHeartbeatAt := some 42 } ∧
    ((create_bot_config createConfigOracleOk sC6 9 0).1 =
        .error (.invalidState .destroyed) ∧
     (create_bot_config createConfigOracleOk sC6 9 0).2 = sC6) := by
  have h := claim_C6_destroyed_not_terminal sC6 9 rowC6 (by decide) (by decide)
  exact ⟨by decide, by decide, h.1, h.2.1 42, h.2.2.2.2.1⟩

/-! ## C2 — compensation of `create_bot` -/

/-- No step of the spawn cleanup path touches the quota counter. -/
theorem counter_spawn_db_fail_cleanup (o : CreateOracle) (s : CPState)
    (log : List RepoCall) (botId dropletId : Nat) :
    (spawn_db_fail_cleanup o s log botId dropletId).2.1.counter = s.counter := by
  unfold spawn_db_fail_cleanup
  split <;> simp [bots_update_status]

/-- No step of `spawn_bot` touches the quota counter. -/
theorem counter_spawn_bot (o : CreateOracle) (s : CPState) (log : List RepoCall)
    (botId : Nat) (token : String) :
    (spawn_bot o s log botId token).2.1.counter = s.counter := by
  unfold spawn_bot spawn_db_fail_cleanup
  cases hdo : o.doCreate
  all_goals
    simp only []
  all_goals
    split_ifs <;> rfl

/-- A successful `BotRepository::create` leaves the quota counter unchanged. -/
theorem counter_bots_create (s : CPState) (id : Nat) (row : BotRow) (s2 : CPState)
    (h : bots_create s id row = .ok s2) : s2.counter = s.counter := by
  unfold bots_create at h
  cases hb : s.bots id <;> rw [hb] at h
  · cases h
    rfl
  · cases h

/-- A successful `ConfigRepository::create` leaves the quota counter
unchanged. -/
theorem counter_configs_create (s : CPState) (id : Nat) (row : ConfigRow) (s2 : CPState)
    (h : configs_create s id row = .ok s2) : s2.counter = s.counter := by
  unfold configs_create at h
  cases hb : s.configs id <;> rw [hb] at h
  · cases h
    rfl
  · cases h

/-- No step of `create_bot_internal` touches the quota counter. -/
theorem counter_create_bot_internal (o : CreateOracle) (s : CPState)
    (log : List RepoCall) (bot : BotRow) (botId configId : Nat) (token : String) :
    (create_bot_internal o s log bot botId configId token).2.1.counter = s.counter := by
  unfold create_bot_internal
  by_cases h1 : o.botCreateOk = true
  swap
  · simp [h1]
  rw [if_neg (by simp [h1])]
  cases hbc : bots_create s botId bot with
  | error e => simp
  | ok sA =>
    have hA := counter_bots_create s botId bot sA hbc
    simp only []
    by_cases h2 : o.encryptOk = true
    swap
    · simp [h2, hA]
    rw [if_neg (by simp [h2])]
    by_cases h3 : o.configCreateOk = true
    swap
    · simp [h3, hA]
    rw [if_neg (by simp [h3])]
    cases hcc : configs_create sA configId { botId := botId, version := 1 } with
    | error e => simp [hA]
    | ok sB =>
      have hB := counter_configs_create sA configId _ sB hcc
      simp only []
      by_cases h4 : o.updateCfgVerOk = true
      swap
      · simp [h4, hA, hB]
      rw [if_neg (by simp [h4])]
      rw [counter_spawn_bot]
      simp [bots_update_config_version, hA, hB]

/-- Counterexample to C2 as stated: an execution hitting the quota limit
returns `AccountLimitReached` — an error other than `RateLimited`, hence
rollback-eligible by `should_rollback_create_failure` — yet the compensation
(`hard_delete`, `decrement_bot_counter`) never runs: the error is returned
before the inner transaction starts. -/
theorem claim_C2_counterexample :
    (create_bot (createOracleOkWith 100) sC2full 1 10 20 "n" "t").1 =
      .error (.accountLimitReached 2) ∧
    should_rollback_create_failure (.accountLimitReached 2) = true ∧
    RepoCall.hardDelete 10 ∉ (create_bot (createOracleOkWith 100) sC2full 1 10 20 "n" "t").2.2 ∧
    RepoCall.decrementBotCounter 1 ∉
      (create_bot (createOracleOkWith 100) sC2full 1 10 20 "n" "t").2.2 := by
  decide

/-- C2 (amended): for every execution of `create_bot` in which the quota
reservation succeeded and which returns a rollback-eligible (non-RateLimited)
error, the compensation runs `hard_delete(bot.id)` and then
`decrement_bot_counter(account_id)` (in that order, at the end of the call
log), the original error is surfaced unchanged, and — when the two
compensating store operations succeed — no Bot row for that bot remains and
the quota counter's post-state equals its pre-state.  Executions failing at
or before the quota reservation (missing account, counter at limit) return
without compensation and also leave no row and the counter unchanged. -/
theorem claim_C2_create_bot_compensation (o : CreateOracle) (s : CPState)
    (accountId botId configId : Nat) (name token : String) (e : ProvisioningError)
    (hacct : o.accountExists = true) (hinc : o.incrementOk = true)
    (hq : s.counter accountId < s.maxBots accountId)
    (hhd : o.hardDeleteOk = true) (hdec : o.decrementOk = true)
    (hres : (create_bot o s accountId botId configId name token).1 = .error e)
    (hrb : should_rollback_create_failure e = true) :
    (create_bot o s accountId botId configId name token).2.1.bots botId = none ∧
    (create_bot o s accountId botId configId name token).2.1.counter accountId =
      s.counter accountId ∧
    (∃ l, (create_bot o s accountId botId configId name token).2.2 =
      l ++ [RepoCall.hardDelete botId, RepoCall.decrementBotCounter accountId]) := by
  unfold create_bot at hres ⊢
  rw [if_neg (by simp [hacct])] at hres ⊢
  rw [if_neg (by simp [hinc])] at hres ⊢
  unfold increment_bot_counter at hres ⊢
  rw [if_pos hq] at hres ⊢
  simp only [] at hres ⊢
  rw [if_neg (by simp)] at hres ⊢
  simp only [List.cons_append, List.nil_append] at hres ⊢
  rcases hI : create_bot_internal o
      { s with counter := updT s.counter accountId (s.counter accountId + 1) }
      [RepoCall.accountGetById accountId, RepoCall.incrementBotCounter accountId]
      (Bot_new accountId (sanitize_bot_name name)) botId configId token
    with ⟨r1, s1, log1⟩
  rw [hI] at hres
  have hcnt : s1.counter = updT s.counter accountId (s.counter accountId + 1) := by
    have := counter_create_bot_internal o
      { s with counter := updT s.counter accountId (s.counter accountId + 1) }
      [RepoCall.accountGetById accountId, RepoCall.incrementBotCounter accountId]
      (Bot_new accountId (sanitize_bot_name name)) botId configId token
    rw [hI] at this
    simpa using this
  cases r1 with
  | ok u => simp at hres
  | error e1 =>
    simp only [] at hres ⊢
    by_cases hr : should_rollback_create_failure e1 = true
    · rw [if_neg (by simp [hr])] at hres ⊢
      refine ⟨?_, ?_, ?_⟩
      · simp [hhd, hdec, decrement_bot_counter, bots_hard_delete, upd, updT]
      · simp [hhd, hdec, decrement_bot_counter, bots_hard_delete, upd, updT, hcnt]
      · exact ⟨log1, by simp⟩
    · rw [if_pos (by simp [hr])] at hres ⊢
      simp only [Except.error.injEq] at hres
      subst hres
      exact absurd hrb (by simpa using hr)

/-- Witness for C2: a concrete execution failing at the config insert rolls
back — the row is gone, the counter is restored, and the log ends with
`hard_delete` then `decrement_bot_counter`. -/
theorem claim_C2_witness :
    (oC2fail.accountExists = true ∧ oC2fail.incrementOk = true ∧
     sEmpty.counter 1 < sEmpty.maxBots 1 ∧ oC2fail.hardDeleteOk = true ∧
     oC2fail.decrementOk = true ∧
     (create_bot oC2fail sEmpty 1 10 20 "n" "t").1 =
       .error (.repository .databaseError) ∧
     should_rollback_create_failure (.repository .databaseError) = true) ∧
    ((create_bot oC2fail sEmpty 1 10 20 "n" "t").2.1.bots 10 = none ∧
     (create_bot oC2fail sEmpty 1 10 20 "n" "t").2.1.counter 1 = sEmpty.counter 1 ∧
     (∃ l, (create_bot oC2fail sEmpty 1 10 20 "n" "t").2.2 =
       l ++ [RepoCall.hardDelete 10, RepoCall.decrementBotCounter 1])) :=
  ⟨⟨rfl, rfl, by decide, rfl, rfl, by decide, rfl⟩,
   claim_C2_create_bot_compensation oC2fail sEmpty 1 10 20 "n" "t"
     (.repository .databaseError) rfl rfl (by decide) rfl rfl (by decide) rfl⟩

/-! ## C3 — destroy_bot, terminal state and the quota counter -/

/-- The store half of `destroy_bot`, on success: the bot's row loses its
droplet reference and becomes `destroyed`, and — when the decrement call
succeeds — the account's counter drops by one (floored at zero by the stored
procedure). -/
theorem destroy_bot_db_lemma (o : DestroyOracle) (s : CPState) (log : List RepoCall)
    (botId : Nat) (bot : BotRow)
    (hok : (destroy_bot_db o s log botId bot).1 = .ok ()) :
    (destroy_bot_db o s log botId bot).2.1.bots botId =
      (s.bots botId).map (fun b => { b with dropletId := none, status := .destroyed }) ∧
    (o.decrementOk = true →
      (destroy_bot_db o s log botId bot).2.1.counter bot.accountId =
        s.counter bot.accountId - 1) := by
  unfold destroy_bot_db at hok ⊢
  by_cases h1 : o.updateDropletOk = true
  swap
  · rw [if_pos (by simp [h1])] at hok
    simp at hok
  rw [if_neg (by simp [h1])] at hok ⊢
  by_cases h2 : o.deleteOk = true
  swap
  · rw [if_pos (by simp [h2])] at hok
    simp at hok
  rw [if_neg (by simp [h2])] at hok ⊢
  constructor
  · by_cases h3 : o.decrementOk = true <;>
      cases hsb : s.bots botId <;>
        simp [h3, decrement_bot_counter, bots_delete, bots_update_droplet, hsb]
  · intro h3
    simp [h3, decrement_bot_counter, bots_delete, bots_update_droplet, updT]

/-- C3 (amended): a successful `destroy_bot` yields the terminal destroyed
row, but the operation is not idempotent on the quota counter: every
successful call on an existing bot row — including a call on an
already-destroyed bot — decrements the account's counter once more (floored
at zero), so after `s` creates the counter equals `s − d` only when the `d`
destroys hit distinct live bots. -/
theorem claim_C3_destroy_bot (o : DestroyOracle) (s : CPState) (botId : Nat)
    (bot : BotRow) (hb : s.bots botId = some bot)
    (hok : (destroy_bot o s botId).1 = .ok ()) :
    (destroy_bot o s botId).2.1.bots botId =
      some { bot with dropletId := none, status := .destroyed } ∧
    (o.decrementOk = true →
      (destroy_bot o s botId).2.1.counter bot.accountId =
        s.counter bot.accountId - 1) := by
  unfold destroy_bot at hok ⊢
  simp only [hb] at hok ⊢
  cases hdrop : bot.dropletId with
  | none =>
    rw [hdrop] at hok
    simp only [] at hok ⊢
    have h := destroy_bot_db_lemma o s [] botId bot hok
    rw [hb] at h
    simpa using h
  | some dropletId =>
    rw [hdrop] at hok
    simp only [] at hok ⊢
    by_cases hdo : o.doDestroy = .err
    · rw [if_pos hdo] at hok
      simp at hok
    · rw [if_neg hdo] at hok ⊢
      by_cases hmk : o.markDestroyedOk = true
      swap
      · rw [if_pos (by simp [hmk])] at hok
        simp at hok
      rw [if_neg (by simp [hmk])] at hok ⊢
      have h := destroy_bot_db_lemma o (droplets_mark_destroyed s dropletId)
        [RepoCall.doDestroyDroplet dropletId, RepoCall.markDestroyed dropletId]
        botId bot hok
      rw [show (droplets_mark_destroyed s dropletId).bots = s.bots from rfl, hb] at h
      simpa [droplets_mark_destroyed] using h

/-- Counterexample to C3 as stated: after `s = 2` successful creates, three
successful `destroy_bot` calls against the *same* bot all succeed, each
decrementing the counter again, leaving it at 0 while one live bot remains:
the claimed value `s − d` is 1 for `d = 1` distinct destroyed bot (and is
negative for `d = 3` calls), so `current_count = s − d` fails and the second
call did corrupt the counter. -/
theorem claim_C3_counterexample :
    sC3b.counter 1 = 2 ∧
    (destroy_bot destroyOracleOk sC3b 10).1 = .ok () ∧
    (destroy_bot destroyOracleOk sC3c 10).1 = .ok () ∧
    (destroy_bot destroyOracleOk sC3d 10).1 = .ok () ∧
    (sC3d.bots 11).isSome ∧
    sC3d.counter 1 = 0 ∧ sC3e.counter 1 = 0 ∧
    sC3d.counter 1 ≠ 2 - 1 := by
  decide

/-- Witness for C3: the amended theorem applied to the second destroy of bot
10 — it succeeds on the already-destroyed row and decrements again. -/
theorem claim_C3_witness :
    (sC3c.bots 10 =
      some { accountId := 1, name := "a", status := .destroyed, dropletId := none,
             desiredConfigVersionId := some 20, appliedConfigVersionId := none,
             registrationToken := some (hash_registration_token "ta"),
             lastHeartbeatAt := none } ∧
     (destroy_bot destroyOracleOk sC3c 10).1 = .ok () ∧
     destroyOracleOk.decrementOk = true) ∧
    ((destroy_bot destroyOracleOk sC3c 10).2.1.bots 10 =
      some { accountId := 1, name := "a", status := .destroyed, dropletId := none,
             desiredConfigVersionId := some 20, appliedConfigVersionId := none,
             registrationToken := some (hash_registration_token "ta"),
             lastHeartbeatAt := none } ∧
     (destroy_bot destroyOracleOk sC3c 10).2.1.counter 1 = sC3c.counter 1 - 1) := by
  have h := claim_C3_destroy_bot destroyOracleOk sC3c 10
    { accountId := 1, name := "a", status := .destroyed, dropletId := none,
      desiredConfigVersionId := some 20, appliedConfigVersionId := none,
      registrationToken := some (hash_registration_token "ta"),
      lastHeartbeatAt := none }
    (by decide) (by decide)
  exact ⟨⟨by decide, by decide, rfl⟩, by simpa using h.1, by simpa using h.2 rfl⟩

/-- C4: when the IaaS returns `RateLimited` during spawn, `create_bot`
surfaces `RateLimited`, the bot row remains with status `pending` (desired
config and token digest set), the quota reservation is still held (counter =
pre + 1), and no rollback call was made. -/
theorem claim_C4_rate_limited_spawn (o : CreateOracle) (s : CPState)
    (accountId botId configId : Nat) (name token : String)
    (hacct : o.accountExists = true) (hinc : o.incrementOk = true)
    (hq : s.counter accountId < s.maxBots accountId)
    (hbc : o.botCreateOk = true) (hfresh : s.bots botId = none)
    (henc : o.encryptOk = true) (hcc : o.configCreateOk = true)
    (hcfree : s.configs configId = none) (hucv : o.updateCfgVerOk = true)
    (hsp : o.statusProvisioningOk = true) (hrt : o.regTokenOk = true)
    (hdo : o.doCreate = .rateLimited) (hpend : o.statusPendingOk = true) :
    (create_bot o s accountId botId configId name token).1 =
      .error (.digitalOcean .rateLimited) ∧
    (create_bot o s accountId botId configId name token).2.1.bots botId =
      some { accountId := accountId, name := sanitize_bot_name name,
             status := .pending, dropletId := none,
             desiredConfigVersionId := some configId,
             appliedConfigVersionId := none,
             registrationToken := some (hash_registration_token token),
             lastHeartbeatAt := none } ∧
    (create_bot o s accountId botId configId name token).2.1.counter accountId =
      s.counter accountId + 1 ∧
    RepoCall.hardDelete botId ∉ (create_bot o s accountId botId configId name token).2.2 ∧
    RepoCall.decrementBotCounter accountId ∉
      (create_bot o s accountId botId configId name token).2.2 := by
  unfold create_bot create_bot_internal spawn_bot
  rw [if_neg (by simp [hacct]), if_neg (by simp [hinc])]
  unfold increment_bot_counter
  rw [if_pos hq]
  simp only []
  rw [if_neg (by simp)]
  rw [if_neg (by simp [hbc])]
  unfold bots_create
  simp only [hfresh]
  rw [if_neg (by simp [henc]), if_neg (by simp [hcc])]
  unfold configs_create
  simp only [hcfree]
  rw [if_neg (by simp [hucv]), if_neg (by simp [hsp]), if_neg (by simp [hrt])]
  simp only [hdo]
  rw [if_neg (by simp [hpend])]
  simp only [should_rollback_create_failure]
  refine ⟨rfl, ?_, ?_, ?_, ?_⟩
  · simp [bots_update_status, bots_update_registration_token,
      bots_update_config_version, upd, Bot_new]
  · simp [bots_update_status, bots_update_registration_token,
      bots_update_config_version, upd, updT]
  · simp
  · simp

/-- Witness for C4: a concrete rate-limited spawn from the empty store. -/
theorem claim_C4_witness :
    ((rateLimitedOracle.accountExists = true ∧ sEmpty.counter 1 < sEmpty.maxBots 1 ∧
      rateLimitedOracle.doCreate = .rateLimited ∧ sEmpty.bots 10 = none) ∧
     ((create_bot rateLimitedOracle sEmpty 1 10 20 "n" "t").1 =
        .error (.digitalOcean .rateLimited) ∧
      (create_bot rateLimitedOracle sEmpty 1 10 20 "n" "t").2.1.counter 1 =
        sEmpty.counter 1 + 1 ∧
      RepoCall.hardDelete 10 ∉ (create_bot rateLimitedOracle sEmpty 1 10 20 "n" "t").2.2)) := by
  have h := claim_C4_rate_limited_spawn rateLimitedOracle sEmpty 1 10 20 "n" "t"
    rfl rfl (by decide) rfl (by decide) rfl rfl (by decide) rfl rfl rfl rfl rfl
  exact ⟨⟨rfl, by decide, rfl, by decide⟩, h.1, h.2.2.1, h.2.2.2.1⟩

/-- Sanity check of the AES-256 embedding against the FIPS 197 C.3 vector. -/
theorem aes256_fips_vector :
    aesEncryptBlock
      [0x00, 0x01, 0x02, 0x03, 0x04, 0x05, 0x06, 0x07, 0x08, 0x09, 0x0a, 0x0b,
       0x0c, 0x0d, 0x0e, 0x0f, 0x10, 0x11, 0x12, 0x13, 0x14, 0x15, 0x16, 0x17,
       0x18, 0x19, 0x1a, 0x1b, 0x1c, 0x1d, 0x1e, 0x1f]
      [0x00, 0x11, 0x22, 0x33, 0x44, 0x55, 0x66, 0x77, 0x88, 0x99, 0xaa, 0xbb,
       0xcc, 0xdd, 0xee, 0xff] =
    [0x8e, 0xa2, 0xb7, 0xca, 0x51, 0x67, 0x45, 0xbf, 0xea, 0xfc, 0x49, 0x90,
     0x4b, 0x49, 0x60, 0x89] := by
  decide

/-- C8: `create_bot_config` refuses a destroyed bot with an invalid-state
error and no state change; otherwise it allocates the next version through
`get_next_version_atomic`, stores the config with that version, points
`desired_config_version_id` at the new config, and leaves
`applied_config_version_id` exactly as it was before the call. -/
theorem claim_C8_create_bot_config (s : CPState) (botId newConfigId : Nat)
    (bot : BotRow) (hb : s.bots botId = some bot) :
    (bot.status = .destroyed →
      (create_bot_config createConfigOracleOk s botId newConfigId).1 =
        .error (.invalidState .destroyed) ∧
      (create_bot_config createConfigOracleOk s botId newConfigId).2 = s) ∧
    (bot.status ≠ .destroyed → s.configs newConfigId = none →
      (create_bot_config createConfigOracleOk s botId newConfigId).1 =
        .ok { botId := botId, version := s.nextVer botId + 1 } ∧
      (create_bot_config createConfigOracleOk s botId newConfigId).2.configs newConfigId =
        some { botId := botId, version := s.nextVer botId + 1 } ∧
      (create_bot_config createConfigOracleOk s botId newConfigId).2.bots botId =
        some { bot with desiredConfigVersionId := some newConfigId }) := by
  constructor
  · intro hd
    rw [create_bot_config_destroyed_lemma s botId newConfigId bot hb hd]
    exact ⟨rfl, rfl⟩
  · intro hd hfresh
    exact create_bot_config_success_lemma s botId newConfigId bot hb hd hfresh

/-- Witness for C8: the theorem applied at `sAck` (bot 1, not destroyed,
fresh config id 9). -/
theorem claim_C8_witness :
    (sAck.bots 1).isSome ∧
    ((create_bot_config createConfigOracleOk sAck 1 9).1 =
      .ok { botId := 1, version := 3 } ∧
     (create_bot_config createConfigOracleOk sAck 1 9).2.configs 9 =
      some { botId := 1, version := 3 } ∧
     (create_bot_config createConfigOracleOk sAck 1 9).2.bots 1 =
      some { accountId := 3, name := "b", status := .provisioning, dropletId := none,
             desiredConfigVersionId := some 9, appliedConfigVersionId := some 4,
             registrationToken := none, lastHeartbeatAt := none }) := by
  have h := (claim_C8_create_bot_config sAck 1 9
    { accountId := 3, name := "b", status := .provisioning, dropletId := none,
      desiredConfigVersionId := some 5, appliedConfigVersionId := some 4,
      registrationToken := none, lastHeartbeatAt := none }
    (by decide)).2 (by decide) (by decide)
  exact ⟨by decide, by simpa using h.1, by simpa using h.2.1, by simpa using h.2.2⟩

/-- Sanity check of the GCM embedding against NIST SP 800-38D AES-256 test
case 13 (zero key, zero IV, empty plaintext). -/
theorem gcm_nist_tag_vector :
    gcmTag (List.replicate 32 0) (List.replicate 12 0) [] =
      [0x53, 0x0f, 0x8a, 0xfb, 0xc7, 0x45, 0x36, 0xb9, 0xa9, 0x63, 0xb4, 0xf1,
       0xc4, 0xcb, 0x73, 0x8b] := by
  decide

/-- Sanity check of the CTR embedding against NIST SP 800-38D AES-256 test
case 14 (zero key, zero IV, one zero block). -/
theorem gcm_nist_ct_vector :
    gctr (List.replicate 32 0) (List.replicate 12 0) (List.replicate 16 0) =
      [0xce, 0xa7, 0x40, 0x3d, 0x4d, 0x60, 0x6b, 0x6e, 0x07, 0x4e, 0xc5, 0xd3,
       0xba, 0xf3, 0x9d, 0x18] := by
  decide

/-- Tag of NIST SP 800-38D AES-256 test case 14. -/
theorem gcm_nist_tag14_vector :
    gcmTag (List.replicate 32 0) (List.replicate 12 0)
      [0xce, 0xa7, 0x40, 0x3d, 0x4d, 0x60, 0x6b, 0x6e, 0x07, 0x4e, 0xc5, 0xd3,
       0xba, 0xf3, 0x9d, 0x18] =
      [0xd0, 0xd1, 0xc8, 0xa7, 0x99, 0x99, 0x6b, 0xf0, 0x26, 0x5b, 0x98, 0xb5,
       0xd4, 0x8a, 0xb9, 0x19] := by
  decide

/-! Length lemmas for the cipher pipeline. -/

theorem natToBytesBE_length (len n : Nat) : (natToBytesBE len n).length = len := by
  simp [natToBytesBE]

theorem wordsToBytes_length (ws : List Nat) : (wordsToBytes ws).length = 4 * ws.length := by
  induction ws with
  | nil => rfl
  | cons w t ih =>
    simp only [wordsToBytes, List.length_cons, ih]
    omega

theorem toWords_length (l : List Nat) : (toWords l).length = l.length / 4 := by
  induction l using toWords.induct with
  | case1 b0 b1 b2 b3 rest ih =>
    simp only [toWords, List.length_cons, ih]
    omega
  | case2 l h =>
    rcases l with _ | ⟨a, _ | ⟨b, _ | ⟨c, _ | ⟨d, t⟩⟩⟩⟩
    · unfold toWords; simp
    · unfold toWords; simp
    · unfold toWords; simp
    · unfold toWords; simp
    · exact (h a b c d t rfl).elim

theorem expandKeyAux_length (n : Nat) : ∀ ws : List Nat,
    (expandKeyAux ws n).length = ws.length + n := by
  induction n with
  | zero => intro ws; rfl
  | succ n ih =>
    intro ws
    unfold expandKeyAux
    rw [ih]
    simp
    omega

theorem expandKey_length (key : List Nat) (hk : key.length = 32) :
    (expandKey key).length = 60 := by
  unfold expandKey
  rw [expandKeyAux_length, toWords_length, hk]

theorem subBytes_length (b : List Nat) : (subBytes b).length = b.length := by
  simp [subBytes]

theorem shiftRows_length (l : List Nat) : (shiftRows l).length = l.length := by
  unfold shiftRows
  split <;> simp

theorem mixColumn_length (l : List Nat) : (mixColumn l).length = l.length := by
  unfold mixColumn
  split <;> simp

theorem mixColumns_length (l : List Nat) : (mixColumns l).length = l.length := by
  induction l using mixColumns.induct with
  | case1 a0 a1 a2 a3 rest ih =>
    simp only [mixColumns, List.length_append, mixColumn_length, ih]
    simp only [List.length_cons, List.length_nil]
    omega
  | case2 l h =>
    rcases l with _ | ⟨a, _ | ⟨b, _ | ⟨c, _ | ⟨d, t⟩⟩⟩⟩
    · unfold mixColumns; simp
    · unfold mixColumns; simp
    · unfold mixColumns; simp
    · unfold mixColumns; simp
    · exact (h a b c d t rfl).elim

theorem aesRounds_length (rks : List (List Nat)) : ∀ b : List Nat,
    (∀ rk ∈ rks, rk.length = 16) → b.length = 16 → (aesRounds rks b).length = 16 := by
  induction rks with
  | nil => intro b _ hb; simpa [aesRounds]
  | cons rk rest ih =>
    intro b hrk hb
    cases rest with
    | nil =>
      simp [aesRounds, List.length_zipWith, shiftRows_length, subBytes_length, hb,
        hrk rk (by simp)]
    | cons rk2 rest2 =>
      rw [show aesRounds (rk :: rk2 :: rest2) b = aesRounds (rk2 :: rest2)
        (List.zipWith Nat.xor (mixColumns (shiftRows (subBytes b))) rk) from rfl]
      apply ih
      · intro rk' h'
        exact hrk rk' (by simp [h'])
      · simp [List.length_zipWith, mixColumns_length, shiftRows_length,
          subBytes_length, hb, hrk rk (by simp)]

theorem aesEncryptBlock_length (key block : List Nat) (hk : key.length = 32)
    (hb : block.length = 16) : (aesEncryptBlock key block).length = 16 := by
  unfold aesEncryptBlock
  have hws := expandKey_length key hk
  have hrk : ∀ rk ∈ (List.range 15).map
      (fun r => wordsToBytes (((expandKey key).drop (4 * r)).take 4)),
      rk.length = 16 := by
    intro rk h
    rcases List.mem_map.mp h with ⟨r, hr, rfl⟩
    have hr15 : r < 15 := List.mem_range.mp hr
    rw [wordsToBytes_length, List.length_take, List.length_drop, hws]
    omega
  cases hrks : (List.range 15).map
      (fun r => wordsToBytes (((expandKey key).drop (4 * r)).take 4)) with
  | nil => exact absurd (congrArg List.length hrks) (by simp)
  | cons rk0 rest =>
    simp only [hrks]
    apply aesRounds_length
    · intro rk' h'
      exact hrk rk' (hrks ▸ List.mem_cons_of_mem rk0 h')
    · have h0 : rk0.length = 16 := hrk rk0 (hrks ▸ List.mem_cons_self rk0 rest)
      simp [List.length_zipWith, hb, h0]

theorem inc32_length (cb : List Nat) (h : cb.length = 16) : (inc32 cb).length = 16 := by
  simp [inc32, natToBytesBE_length, List.length_take, h]

theorem ctrBlocksAux_length (key : List Nat) (hk : key.length = 32) (n : Nat) :
    ∀ cb : List Nat, cb.length = 16 → (ctrBlocksAux key cb n).length = 16 * n := by
  induction n with
  | zero => intro cb _; rfl
  | succ n ih =>
    intro cb hcb
    simp only [ctrBlocksAux, List.length_append,
      aesEncryptBlock_length key cb hk hcb, ih (inc32 cb) (inc32_length cb hcb)]
    omega

theorem keystream_length (key nonce : List Nat) (n : Nat) (hk : key.length = 32)
    (hn : nonce.length = 12) : (keystream key nonce n).length = n := by
  unfold keystream
  rw [List.length_take, ctrBlocksAux_length key hk _ _
    (inc32_length _ (by simp [hn]))]
  omega

theorem gctr_length (key nonce pt : List Nat) (hk : key.length = 32)
    (hn : nonce.length = 12) : (gctr key nonce pt).length = pt.length := by
  simp [gctr, List.length_zipWith, keystream_length key nonce pt.length hk hn]

theorem gcmTag_length (key nonce ct : List Nat) (hk : key.length = 32)
    (hn : nonce.length = 12) : (gcmTag key nonce ct).length = 16 := by
  unfold gcmTag
  have h1 : (aesEncryptBlock key (nonce ++ [0, 0, 0, 1])).length = 16 :=
    aesEncryptBlock_length key _ hk (by simp [hn])
  simp [List.length_zipWith, natToBytesBE_length, h1]

theorem zipWith_xor_cancel (pt : List Nat) : ∀ ks : List Nat, pt.length ≤ ks.length →
    List.zipWith Nat.xor (List.zipWith Nat.xor pt ks) ks = pt := by
  induction pt with
  | nil => intro ks _; simp
  | cons a t ih =>
    intro ks h
    cases ks with
    | nil =>
      simp only [List.length_cons, List.length_nil] at h
      omega
    | cons k kt =>
      simp only [List.zipWith_cons_cons]
      rw [ih kt (by simp only [List.length_cons] at h; exact Nat.le_of_succ_le_succ h)]
      have hx : Nat.xor (Nat.xor a k) k = a := by
        show a ^^^ k ^^^ k = a
        simp [Nat.xor_assoc]
      rw [hx]

/-! UTF-8 round trip. -/

theorem utf8Decode_encodeChar (c : Char) (rest : List Nat) :
    utf8Decode (utf8EncodeChar c ++ rest) = (utf8Decode rest).map (fun cs => c :: cs) := by
  have hofNat : Char.ofNat c.toNat = c := Char.ofNat_toNat c
  have hq : c.toNat < 0xD800 ∨ (0xDFFF < c.toNat ∧ c.toNat < 0x110000) := by
    rcases c.valid with hv | ⟨hv1, hv2⟩
    · exact Or.inl hv
    · exact Or.inr ⟨hv1, hv2⟩
  rcases hq with hv | ⟨hv1, hv2⟩
  all_goals (
    by_cases h1 : c.toNat < 0x80
    · unfold utf8EncodeChar
      rw [if_pos h1]
      show utf8Decode (c.toNat :: rest) = _
      rw [utf8Decode.eq_def]
      simp only []
      rw [if_pos h1]
      simp only [hofNat]
    · by_cases h2 : c.toNat < 0x800
      · unfold utf8EncodeChar
        rw [if_neg h1, if_pos h2]
        show utf8Decode ((0xC0 + c.toNat / 64) :: (0x80 + c.toNat % 64) :: rest) = _
        rw [utf8Decode.eq_def]
        simp only []
        rw [if_neg (by omega), if_neg (by omega), if_pos (by omega), if_pos (by omega)]
        have hN : (0xC0 + c.toNat / 64 - 0xC0) * 64 + (0x80 + c.toNat % 64 - 0x80) =
            c.toNat := by omega
        simp only [hN, hofNat]
      · by_cases h3 : c.toNat < 0x10000
        · unfold utf8EncodeChar
          rw [if_neg h1, if_neg h2, if_pos h3]
          show utf8Decode ((0xE0 + c.toNat / 4096) :: (0x80 + c.toNat / 64 % 64) ::
            (0x80 + c.toNat % 64) :: rest) = _
          rw [utf8Decode.eq_def]
          simp only []
          rw [if_neg (by omega), if_neg (by omega), if_neg (by omega), if_pos (by omega),
            if_pos (by refine ⟨by omega, by omega, by omega, by omega⟩)]
          have hN : (0xE0 + c.toNat / 4096 - 0xE0) * 4096 +
              (0x80 + c.toNat / 64 % 64 - 0x80) * 64 + (0x80 + c.toNat % 64 - 0x80) =
              c.toNat := by omega
          simp only [hN, hofNat]
        · unfold utf8EncodeChar
          rw [if_neg h1, if_neg h2, if_neg h3]
          show utf8Decode ((0xF0 + c.toNat / 262144) :: (0x80 + c.toNat / 4096 % 64) ::
            (0x80 + c.toNat / 64 % 64) :: (0x80 + c.toNat % 64) :: rest) = _
          rw [utf8Decode.eq_def]
          simp only []
          rw [if_neg (by omega), if_neg (by omega), if_neg (by omega), if_neg (by omega),
            if_pos (by refine ⟨by omega, by omega, by omega, by omega, by omega⟩)]
          have hN : (0xF0 + c.toNat / 262144 - 0xF0) * 262144 +
              (0x80 + c.toNat / 4096 % 64 - 0x80) * 4096 +
              (0x80 + c.toNat / 64 % 64 - 0x80) * 64 + (0x80 + c.toNat % 64 - 0x80) =
              c.toNat := by omega
          simp only [hN, hofNat])

theorem utf8Decode_encode_list (l : List Char) :
    utf8Decode ((l.map utf8EncodeChar).flatten) = some l := by
  induction l with
  | nil => rfl
  | cons c t ih =>
    simp only [List.map_cons, List.flatten_cons]
    rw [utf8Decode_encodeChar, ih]
    rfl

theorem utf8Decode_strBytes (p : String) : utf8Decode (strBytes p) = some p.data :=
  utf8Decode_encode_list p.data

/-! The secrets envelope: decrypt inverts encrypt, and every failure is
`DecryptionFailed`. -/

theorem encrypt_take_12 (key nonce : List Nat) (p : String) (hn : nonce.length = 12) :
    (encrypt key nonce p).take 12 = nonce := by
  show (nonce ++ gctr key nonce (strBytes p) ++
    gcmTag key nonce (gctr key nonce (strBytes p))).take 12 = nonce
  rw [List.append_assoc, List.take_left' hn]

theorem encrypt_drop_12 (key nonce : List Nat) (p : String) (hn : nonce.length = 12) :
    (encrypt key nonce p).drop 12 =
      gctr key nonce (strBytes p) ++ gcmTag key nonce (gctr key nonce (strBytes p)) := by
  show (nonce ++ gctr key nonce (strBytes p) ++
    gcmTag key nonce (gctr key nonce (strBytes p))).drop 12 = _
  rw [List.append_assoc, List.drop_left' hn]

theorem decrypt_eq (key bs : List Nat) :
    decrypt key bs =
      if bs.length < 12 then .error .decryptionFailed
      else if (bs.drop 12).length < 16 then .error .decryptionFailed
      else if gcmTag key (bs.take 12) ((bs.drop 12).take ((bs.drop 12).length - 16)) ≠
          (bs.drop 12).drop ((bs.drop 12).length - 16) then .error .decryptionFailed
      else
        match utf8Decode (gctr key (bs.take 12)
            ((bs.drop 12).take ((bs.drop 12).length - 16))) with
        | none => .error .decryptionFailed
        | some chars => .ok ⟨chars⟩ := rfl

theorem gctr_gctr (key nonce : List Nat) (pt : List Nat) (hk : key.length = 32)
    (hn : nonce.length = 12) : gctr key nonce (gctr key nonce pt) = pt := by
  show List.zipWith Nat.xor (gctr key nonce pt)
    (keystream key nonce (gctr key nonce pt).length) = pt
  rw [gctr_length key nonce pt hk hn]
  exact zipWith_xor_cancel pt (keystream key nonce pt.length)
    (Nat.le_of_eq (keystream_length key nonce pt.length hk hn).symm)

theorem decrypt_encrypt (key nonce : List Nat) (p : String)
    (hk : key.length = 32) (hn : nonce.length = 12) :
    decrypt key (encrypt key nonce p) = Except.ok p := by
  have hc : (gctr key nonce (strBytes p)).length = (strBytes p).length :=
    gctr_length key nonce _ hk hn
  have ht : (gcmTag key nonce (gctr key nonce (strBytes p))).length = 16 :=
    gcmTag_length key nonce _ hk hn
  have hlen : (encrypt key nonce p).length = 12 + (strBytes p).length + 16 := by
    show (nonce ++ gctr key nonce (strBytes p) ++
      gcmTag key nonce (gctr key nonce (strBytes p))).length = _
    simp only [List.length_append, hn, hc, ht]
  rw [decrypt_eq, encrypt_take_12 key nonce p hn, encrypt_drop_12 key nonce p hn]
  rw [if_neg (by omega)]
  rw [if_neg (by rw [List.length_append, ht]; omega)]
  have h16 : (gctr key nonce (strBytes p) ++
      gcmTag key nonce (gctr key nonce (strBytes p))).length - 16 =
      (gctr key nonce (strBytes p)).length := by
    rw [List.length_append, ht]
    omega
  rw [h16, List.take_left, List.drop_left]
  rw [if_neg (not_not_intro rfl)]
  rw [gctr_gctr key nonce (strBytes p) hk hn, utf8Decode_strBytes]

/-- C9: the AES-256-GCM secrets envelope. For every 32-byte key: (1) for
every 12-byte nonce and UTF-8 string `p`, `decrypt (encrypt p)` returns
`p`; (2) `encrypt` returns the 12-byte nonce followed by the CTR
ciphertext of the UTF-8 bytes and then the 16-byte GCM tag; (3) `decrypt`
fails with `DecryptionFailed` on any input shorter than 12 bytes, (4) on
authentication-tag mismatch, and (5) whenever the decrypted bytes are not
valid UTF-8. -/
theorem claim_C9_secrets_envelope (key : List Nat) (hk : key.length = 32) :
    (∀ nonce p, nonce.length = 12 →
      decrypt key (encrypt key nonce p) = Except.ok p) ∧
    (∀ nonce p, nonce.length = 12 →
      (encrypt key nonce p).take 12 = nonce ∧
      (encrypt key nonce p).drop 12 =
        gctr key nonce (strBytes p) ++
          gcmTag key nonce (gctr key nonce (strBytes p)) ∧
      (gcmTag key nonce (gctr key nonce (strBytes p))).length = 16) ∧
    (∀ bs : List Nat, bs.length < 12 →
      decrypt key bs = Except.error EncryptionError.decryptionFailed) ∧
    (∀ bs : List Nat, ¬ bs.length < 12 → ¬ (bs.drop 12).length < 16 →
      gcmTag key (bs.take 12) ((bs.drop 12).take ((bs.drop 12).length - 16)) ≠
        (bs.drop 12).drop ((bs.drop 12).length - 16) →
      decrypt key bs = Except.error EncryptionError.decryptionFailed) ∧
    (∀ bs : List Nat,
      utf8Decode (gctr key (bs.take 12)
        ((bs.drop 12).take ((bs.drop 12).length - 16))) = none →
      decrypt key bs = Except.error EncryptionError.decryptionFailed) := by
  refine ⟨fun nonce p hn => decrypt_encrypt key nonce p hk hn,
    fun nonce p hn => ⟨encrypt_take_12 key nonce p hn, encrypt_drop_12 key nonce p hn,
      gcmTag_length key nonce _ hk hn⟩,
    fun bs h => by rw [decrypt_eq, if_pos h],
    fun bs h1 h2 h3 => by rw [decrypt_eq, if_neg h1, if_neg h2, if_pos h3],
    fun bs h => ?_⟩
  rw [decrypt_eq]
  split_ifs <;> try rfl
  rw [h]

/-- Witness for C9: the all-zero 32-byte key satisfies the key-length
hypothesis, and the short-input clause applies to the empty ciphertext. -/
theorem claim_C9_witness :
    (List.replicate 32 (0 : Nat)).length = 32 ∧
    decrypt (List.replicate 32 0) [] = Except.error EncryptionError.decryptionFailed :=
  ⟨by decide,
    (claim_C9_secrets_envelope (List.replicate 32 0) (by decide)).2.2.1 [] (by decide)⟩

end ClawSpawn
